import Mathlib

/-!
# RUBA-Trader: the scheduled repository-synchronisation controller

A shallow embedding of `scripts/auto-git.js` (class `AutoGit` and the one-shot
run of the script) and of the `github` section of `src/bot/config.js`.

Modelling conventions.

* A JavaScript string is the list of its UTF-16 code units, so `length`,
  `substring` and `join` are the list operations on code units.
* The git client (`simple-git`), the reload callback, the log sink (the `fs`
  and `console` writes of `log`) and the scheduler (`node-cron`) are external:
  they are arbitrary functions on a hidden world state `σ` that either succeed
  or reject with a thrown value.
* A thrown value is described by what evaluating `error.message` inside a
  template literal does: it yields a text or throws in turn.
* The object `git.status()` resolves to may lack the property `staging`.
* `await` is sequential composition; one cycle is modelled on its own, without
  interleaving with other cycles.
* The ISO timestamp that `log` puts before every line is not modelled.
* Every call made on the git client, on the reload callback and on the
  scheduler is recorded, with its outcome, in a trace.
* JavaScript numbers are `NaN`, the infinities and the integers that are
  doubles; `parseInt` rounds to the nearest double, ties to even.
-/

namespace RubaTrader

/-! ## JavaScript strings -/

/-- A JavaScript string value: the sequence of its UTF-16 code units. -/
abbrev JSString := List Nat

/-- The UTF-16 code units of one Unicode scalar value. -/
def utf16Char (c : Char) : List Nat :=
  if c.toNat < 0x10000 then [c.toNat]
  else [0xD800 + (c.toNat - 0x10000) / 0x400, 0xDC00 + (c.toNat - 0x10000) % 0x400]

/-- The JavaScript string denoted by a string literal of the source. -/
def utf16 (s : String) : JSString :=
  (s.toList.map utf16Char).flatten

/-- The method `String.prototype.substring(0, n)`: the first `n` code units. -/
def substring0 (s : JSString) (n : Nat) : JSString :=
  s.take n

/-- The method `Array.prototype.join(sep)` on an array of strings. -/
def join (xs : List JSString) (sep : JSString) : JSString :=
  sep.intercalate xs

/-! ## JavaScript numbers -/

/-- A JavaScript number that is `NaN`, an infinity or an integer (`-0` is
identified with `0`). -/
inductive JSNumber where
  | nan
  | finite (value : Int)
  | infinity (negative : Bool)
deriving DecidableEq, Repr

/-- The least `k` from `k` on, within `fuel` steps, with `n / 2 ^ k < 2 ^ 53`. -/
def shiftOf : Nat → Nat → Nat → Nat
  | 0, _, k => k
  | fuel + 1, n, k => if n / 2 ^ k < 2 ^ 53 then k else shiftOf fuel n (k + 1)

/-- The quotient `n / 2 ^ k` rounded to the nearest integer, ties to even. -/
def roundShifted (n k : Nat) : Nat :=
  if 2 ^ (k - 1) < n % 2 ^ k ∨ (n % 2 ^ k = 2 ^ (k - 1) ∧ (n / 2 ^ k) % 2 = 1) then
    n / 2 ^ k + 1
  else n / 2 ^ k

/-- The double nearest to the natural number `n` (a significand of 53 bits,
ties to even), `none` when that is `Infinity`. -/
def roundToDouble (n : Nat) : Option Nat :=
  if n < 2 ^ 53 then some n
  else if 2 ^ 1024 ≤ n then none
  else if 2 ^ 1024 ≤ roundShifted n (shiftOf 1024 n 0) * 2 ^ shiftOf 1024 n 0 then none
  else some (roundShifted n (shiftOf 1024 n 0) * 2 ^ shiftOf 1024 n 0)

/-- The decimal with `k` significant digits nearest to the double `x` (of `len`
digits), when it rounds back to `x`. -/
def shortestCandidate (x len k : Nat) : Option Nat :=
  let step := 10 ^ (len - k)
  let lo := x / step * step
  let hi := lo + step
  let okLo : Bool := roundToDouble lo = some x
  let okHi : Bool := roundToDouble hi = some x
  if okLo && okHi then
    some (if x - lo < hi - x then lo
      else if hi - x < x - lo then hi
      else if (lo / step) % 2 = 0 then lo else hi)
  else if okLo then some lo
  else if okHi then some hi
  else none

/-- The decimal of fewest significant digits that rounds to the double `x`:
the digits `Number.prototype.toString` prints. -/
def shortestDecimal (x : Nat) : Nat :=
  match (List.range (toString x).length).findSome?
      (fun i => shortestCandidate x (toString x).length (i + 1)) with
  | some c => c
  | none => x

/-- The digits of `ds` without the zeros at the end. -/
def dropTrailingZeros (ds : List Char) : List Char :=
  (ds.reverse.dropWhile (fun c => c = '0')).reverse

/-- The text of the decimal `c`: all its digits up to 21 of them, exponent form
beyond. -/
def formatDecimal (c : Nat) : String :=
  if (toString c).length ≤ 21 then toString c
  else
    match dropTrailingZeros (toString c).toList with
    | [] => toString c
    | d :: rest =>
      String.mk ([d] ++ (if rest = [] then [] else ".".toList ++ rest) ++ "e+".toList
        ++ (toString ((toString c).length - 1)).toList)

/-- The text of a non-negative integer number. -/
def naturalToText (x : Nat) : String :=
  if x < 2 ^ 53 then toString x
  else
    match roundToDouble x with
    | none => "Infinity"
    | some v => formatDecimal (shortestDecimal v)

/-- Template-literal conversion of a number to text. -/
def numberToString (x : JSNumber) : JSString :=
  match x with
  | JSNumber.nan => utf16 "NaN"
  | JSNumber.infinity false => utf16 "Infinity"
  | JSNumber.infinity true => utf16 "-Infinity"
  | JSNumber.finite n =>
    if n < 0 then utf16 "-" ++ utf16 (naturalToText n.natAbs) else utf16 (naturalToText n.natAbs)

/-- The comparison `x > 0` on a number. -/
def JSNumber.isPositive : JSNumber → Bool
  | JSNumber.nan => false
  | JSNumber.finite n => decide (0 < n)
  | JSNumber.infinity negative => !negative

/-! ## Thrown values -/

/-- A value thrown by a collaborator or by the code, described by what
evaluating `error.message` inside a template literal does. -/
inductive JSError where
  | object (message : JSString)
  | null
  | undefined
  | messageThrows (thrown : JSError)
deriving DecidableEq, Repr

/-- The `TypeError` of reading the property `property` of `undefined` or
`null`. -/
def typeErrorReading (property : String) (target : String) : JSError :=
  JSError.object
    (utf16 ("Cannot read properties of " ++ target ++ " (reading \x27" ++ property ++ "\x27)"))

/-- The evaluation of `error.message` inside a template literal: the text, or
the value it throws (a `TypeError` for `null` and `undefined`). -/
def JSError.readMessage : JSError → Except JSError JSString
  | JSError.object message => Except.ok message
  | JSError.null => Except.error (typeErrorReading "message" "null")
  | JSError.undefined => Except.error (typeErrorReading "message" "undefined")
  | JSError.messageThrows thrown => Except.error thrown

/-- How many times in a row reading the message throws: 0 for an error object
with a readable message, 1 for `null` and `undefined`. -/
def JSError.depth : JSError → Nat
  | JSError.object _ => 0
  | JSError.null => 1
  | JSError.undefined => 1
  | JSError.messageThrows thrown => thrown.depth + 1

/-! ## External collaborators -/

/-- One entry of `StatusResult.files`: the changed path and its change kind. -/
structure FileStatus where
  path : JSString
  kind : JSString
deriving DecidableEq, Repr

/-- The value of `status.staging`: an array of paths, or `undefined` when the
status object has no such property. -/
inductive Staging where
  | missing
  | array (paths : List JSString)
deriving DecidableEq, Repr

/-- The expression `status.staging.length`. -/
def Staging.length : Staging → Except JSError Nat
  | Staging.missing => Except.error (typeErrorReading "length" "undefined")
  | Staging.array paths => Except.ok paths.length

/-- The fields of the object `git.status()` resolves to that the code reads:
`current`, `files`, `ahead`, `behind`, `tracking` in `getStatus` and `staging`
in `commitAndPush`. -/
structure StatusResult where
  current : JSString
  files : List FileStatus
  ahead : Nat
  behind : Nat
  tracking : Option JSString
  staging : Staging
deriving DecidableEq, Repr

/-- The `files` argument of `git.add`: one path or an array of paths. -/
inductive PathSet where
  | one (path : JSString)
  | many (paths : List JSString)
deriving DecidableEq, Repr

/-- The git client: each operation acts on the hidden world and either
resolves or rejects. -/
structure GitClient (σ : Type) where
  status : σ → Except JSError StatusResult × σ
  add : PathSet → σ → Except JSError Unit × σ
  commit : JSString → σ → Except JSError Unit × σ
  push : JSString → JSString → σ → Except JSError Unit × σ
  pull : JSString → JSString → σ → Except JSError Unit × σ

/-- A reload callback: a zero-argument asynchronous operation of the host. -/
abbrev ReloadCallback (σ : Type) := σ → Except JSError Unit × σ

/-- The log sink: lines 21 to 31 of `log` (creating the directory, appending
the line to the file, printing it), which may throw. -/
abbrev LogSink (σ : Type) := JSString → σ → Except JSError Unit × σ

/-- A call made by the controller on one of its collaborators. -/
inductive Call where
  | add (files : PathSet)
  | status
  | commit (message : JSString)
  | push (remote branch : JSString)
  | pull (remote branch : JSString)
  | reload
  | schedule (expression : JSString)
deriving DecidableEq, Repr

/-- An add, commit, push or pull: a call that changes the repository. -/
def Call.isGitMutating : Call → Bool
  | .add _ => true
  | .commit _ => true
  | .push _ _ => true
  | .pull _ _ => true
  | .status => false
  | .reload => false
  | .schedule _ => false

/-! ## The effect model -/

/-- Everything a run can observe or change: the hidden world of the
collaborators, the lines logged so far and the calls made so far (each with
`true` when it resolved, `false` when it rejected). -/
structure Sys (σ : Type) where
  world : σ
  log : List JSString
  trace : List (Call × Bool)
deriving DecidableEq, Repr

/-- An asynchronous computation: it resolves to a value or rejects with a
thrown value, and leaves a new state either way. -/
def Eff (σ α : Type) : Type := Sys σ → Except JSError α × Sys σ

/-- A resolved value. -/
def Eff.pure {σ α : Type} (a : α) : Eff σ α :=
  fun s => (Except.ok a, s)

/-- Sequencing (`await`): a rejection skips the rest. -/
def Eff.bind {σ α β : Type} (m : Eff σ α) (f : α → Eff σ β) : Eff σ β :=
  fun s =>
    match m s with
    | (Except.ok a, s1) => f a s1
    | (Except.error e, s1) => (Except.error e, s1)

/-- The statement `throw error`. -/
def Eff.throw {σ α : Type} (e : JSError) : Eff σ α :=
  fun s => (Except.error e, s)

/-- An evaluation that yields a value or throws, and touches no collaborator. -/
def Eff.ofExcept {σ α : Type} (r : Except JSError α) : Eff σ α :=
  fun s => (r, s)

/-- The statement `try { body } catch (error) { handler }`. -/
def Eff.tryCatch {σ α : Type} (body : Eff σ α) (handler : JSError → Eff σ α) : Eff σ α :=
  fun s =>
    match body s with
    | (Except.ok a, s1) => (Except.ok a, s1)
    | (Except.error e, s1) => handler e s1

/-- A promise that is started and not awaited: it runs, and its outcome is
dropped. -/
def Eff.detached {σ α : Type} (m : Eff σ α) : Eff σ Unit :=
  fun s => (Except.ok (), (m s).2)

instance {σ : Type} : Monad (Eff σ) where
  pure := Eff.pure
  bind := Eff.bind

/-- Was the outcome a resolution? -/
def resolved {α : Type} : Except JSError α → Bool
  | Except.ok _ => true
  | Except.error _ => false

/-- Perform one call on a collaborator and record it with its outcome. -/
def invoke {σ α : Type} (c : Call) (op : σ → Except JSError α × σ) : Eff σ α :=
  fun s =>
    ((op s.world).1,
      { world := (op s.world).2, log := s.log, trace := s.trace ++ [(c, resolved (op s.world).1)] })

/-- The computation `m` resolves, or rejects with a value of depth below `d`
(so with `d = 0` it always resolves). -/
def SettlesBelow {σ α : Type} (d : Nat) (m : Eff σ α) : Prop :=
  ∀ s, (∃ a, (m s).1 = Except.ok a) ∨ (∃ e, (m s).1 = Except.error e ∧ e.depth < d)

/-! ## Reading the configuration from the environment -/

/-- The white space and line terminator code units `parseInt` skips. -/
def isWhiteSpace (c : Nat) : Bool :=
  c ∈ [0x09, 0x0A, 0x0B, 0x0C, 0x0D, 0x20, 0xA0, 0x1680, 0x2028, 0x2029, 0x202F, 0x205F,
    0x3000, 0xFEFF] || (0x2000 ≤ c && c ≤ 0x200A)

/-- The value of a code unit as a digit (`0-9`, `a-z`, `A-Z`). -/
def digitValue (c : Nat) : Option Nat :=
  if 48 ≤ c ∧ c ≤ 57 then some (c - 48)
  else if 97 ≤ c ∧ c ≤ 122 then some (c - 97 + 10)
  else if 65 ≤ c ∧ c ≤ 90 then some (c - 65 + 10)
  else none

/-- The digit values of the longest leading run of radix-`R` digits. -/
def digitRun (R : Nat) : JSString → List Nat
  | [] => []
  | c :: cs =>
    match digitValue c with
    | some d => if d < R then d :: digitRun R cs else []
    | none => []

/-- The integer written by a list of digit values in radix `R`. -/
def digitsValue (R : Nat) (ds : List Nat) : Nat :=
  ds.foldl (fun acc d => acc * R + d) 0

/-- The unsigned part of `parseInt`: an optional `0x` or `0X` selects radix 16
(radix 10 otherwise), then the longest run of digits of that radix is read;
`none` (`NaN`) when that run is empty. -/
def parseMagnitude (S1 : JSString) : Option Nat :=
  let hex : Bool := S1.take 2 = [48, 120] ∨ S1.take 2 = [48, 88]
  let R := if hex then 16 else 10
  let S2 := if hex then S1.drop 2 else S1
  let Z := digitRun R S2
  if Z = [] then none else some (digitsValue R Z)

/-- The number for the mathematical integer `sign * v`: the nearest double, an
infinity beyond the largest one. -/
def toNumber (negative : Bool) (v : Nat) : JSNumber :=
  match roundToDouble v with
  | some d => JSNumber.finite (if negative then -(d : Int) else (d : Int))
  | none => JSNumber.infinity negative

/-- The global function `parseInt(string)` called without a radix, on a string:
leading white space is skipped, a sign `-` (45) or `+` (43) is read, then the
unsigned part. -/
def parseIntString (input : JSString) : JSNumber :=
  let S := input.dropWhile isWhiteSpace
  let negative : Bool := S.head? = some 45
  let S1 := if S.head? = some 45 ∨ S.head? = some 43 then S.tail else S
  match parseMagnitude S1 with
  | none => JSNumber.nan
  | some v => toNumber negative v

/-- The global function `parseInt` on an environment variable: a string, or
`undefined`, which `ToString` turns into the text `undefined`. -/
def parseInt (value : Option JSString) : JSNumber :=
  match value with
  | some s => parseIntString s
  | none => parseIntString (utf16 "undefined")

/-- The expression `x || d` on a number `x`: `NaN` and zero are falsy. -/
def numberOr (x : JSNumber) (d : JSNumber) : JSNumber :=
  match x with
  | JSNumber.nan => d
  | JSNumber.finite n => if n = 0 then d else JSNumber.finite n
  | JSNumber.infinity negative => JSNumber.infinity negative

/-- The expression `x || d` on an optional string: `undefined` and the empty
string are falsy. -/
def stringOr (x : Option JSString) (d : JSString) : JSString :=
  match x with
  | some s => if s = [] then d else s
  | none => d

/-- The object `process.env`. -/
abbrev ProcessEnv := String → Option JSString

/-- The expression `parseInt(process.env.GITHUB_SYNC_INTERVAL) || 30`. -/
def syncInterval (env : ProcessEnv) : JSNumber :=
  numberOr (parseInt (env "GITHUB_SYNC_INTERVAL")) (JSNumber.finite 30)

/-- The object `this.config` of `AutoGit`. -/
structure Config where
  username : Option JSString
  repo : Option JSString
  branch : JSString
  autoSync : Bool
  syncInterval : JSNumber
deriving DecidableEq, Repr

/-- The configuration built by the constructor of `AutoGit`. -/
def constructorConfig (env : ProcessEnv) : Config :=
  { username := env "GITHUB_USERNAME"
    repo := env "GITHUB_REPO"
    branch := stringOr (env "GITHUB_BRANCH") (utf16 "main")
    autoSync := env "GITHUB_AUTO_SYNC" == some (utf16 "true")
    syncInterval := syncInterval env }

/-- The `github` section of the configuration module `src/bot/config.js`. -/
structure GithubConfig where
  token : Option JSString
  username : Option JSString
  repo : Option JSString
  branch : JSString
  autoSync : Bool
  syncInterval : JSNumber
  pushOnConfigChange : Bool
deriving DecidableEq, Repr

/-- The value of `github` in `module.exports` of `src/bot/config.js`. -/
def githubConfig (env : ProcessEnv) : GithubConfig :=
  { token := env "GITHUB_TOKEN"
    username := env "GITHUB_USERNAME"
    repo := env "GITHUB_REPO"
    branch := stringOr (env "GITHUB_BRANCH") (utf16 "main")
    autoSync := env "GITHUB_AUTO_SYNC" == some (utf16 "true")
    syncInterval := syncInterval env
    pushOnConfigChange := env "GITHUB_PUSH_ON_CONFIG_CHANGE" == some (utf16 "true") }

/-- Whether the text of the variable is, after leading white space, a minus
sign followed by a numeral (decimal, or hexadecimal after `0x`) that is not
zero. -/
def readsNegative (value : Option JSString) : Bool :=
  match value with
  | none => false
  | some text =>
    (text.dropWhile isWhiteSpace).head? = some 45 &&
      match parseMagnitude (text.dropWhile isWhiteSpace).tail with
      | some v => v != 0
      | none => false

/-- The environment in which only `GITHUB_SYNC_INTERVAL` is set, to `text`. -/
def envWithInterval (text : String) : ProcessEnv :=
  fun name => if name = "GITHUB_SYNC_INTERVAL" then some (utf16 text) else none

/-- The environment in which no variable is set. -/
def emptyEnv : ProcessEnv :=
  fun _ => none

/-! ## The class `AutoGit` -/

/-- An instance of the class: its git client, the sink its `log` writes to,
its configuration and the reload callback, absent until `setReloadCallback` is
called. -/
structure AutoGit (σ : Type) where
  git : GitClient σ
  writeLog : LogSink σ
  config : Config
  onReload : Option (ReloadCallback σ)

/-- The snapshot `getStatus` returns. -/
structure RepositoryStatus where
  branch : JSString
  files : List FileStatus
  ahead : Nat
  behind : Nat
  tracking : Option JSString
deriving DecidableEq, Repr

namespace AutoGit

variable {σ : Type}

/-- The method `log(message)`: the line is written to the sink; when the sink
throws, so does `log`. -/
def log (self : AutoGit σ) (message : JSString) : Eff σ Unit :=
  fun s =>
    match (self.writeLog message s.world).1 with
    | Except.ok _ =>
      (Except.ok (),
        { world := (self.writeLog message s.world).2, log := s.log ++ [message],
          trace := s.trace })
    | Except.error e =>
      (Except.error e,
        { world := (self.writeLog message s.world).2, log := s.log, trace := s.trace })

/-- The statement `this.log(label + error.message)` of the catch blocks: the
message is read, which may throw, then the line is logged. -/
def logFailure (self : AutoGit σ) (label : JSString) (error : JSError) : Eff σ Unit := do
  let text ← Eff.ofExcept error.readMessage
  self.log (label ++ text)

/-- The method `getStatus()`. -/
def getStatus (self : AutoGit σ) : Eff σ RepositoryStatus :=
  Eff.tryCatch
    (do
      let status ← invoke Call.status self.git.status
      return {
        branch := status.current
        files := status.files
        ahead := status.ahead
        behind := status.behind
        tracking := status.tracking })
    (fun error => do
      self.logFailure (utf16 "❌ Get status failed: ") error
      Eff.throw error)

/-- The method `commitAndPush(message, files)`. -/
def commitAndPush (self : AutoGit σ) (message : JSString) (files : PathSet) : Eff σ Bool :=
  Eff.tryCatch
    (do
      self.log (utf16 "📝 Committing changes: " ++ message)
      invoke (Call.add files) (self.git.add files)
      let status ← invoke Call.status self.git.status
      let staged ← Eff.ofExcept status.staging.length
      if staged = 0 then do
        self.log (utf16 "ℹ️  No changes to commit")
        return true
      else do
        invoke (Call.commit message) (self.git.commit message)
        self.log (utf16 "✅ Changes committed")
        invoke (Call.push (utf16 "origin") self.config.branch)
          (self.git.push (utf16 "origin") self.config.branch)
        self.log (utf16 "✅ Changes pushed to origin/" ++ self.config.branch)
        return true)
    (fun error => do
      self.logFailure (utf16 "❌ Commit/Push failed: ") error
      return false)

/-- The default value `'.'` of the parameter `files` of `commitAndPush`. -/
def defaultFiles : PathSet :=
  PathSet.one (utf16 ".")

/-- The method `pullAndReload()`. -/
def pullAndReload (self : AutoGit σ) : Eff σ Bool :=
  Eff.tryCatch
    (do
      let status ← self.getStatus
      if status.behind > 0 then do
        self.log (utf16 "📥 Pulling " ++ numberToString (JSNumber.finite status.behind)
          ++ utf16 " commit(s) from GitHub...")
        invoke (Call.pull (utf16 "origin") self.config.branch)
          (self.git.pull (utf16 "origin") self.config.branch)
        self.log (utf16 "✅ Changes pulled successfully")
        match self.onReload with
        | some onReload => invoke Call.reload onReload
        | none => pure ()
        return true
      else do
        self.log (utf16 "✅ Already up to date")
        return false)
    (fun error => do
      self.logFailure (utf16 "❌ Pull failed: ") error
      return false)

/-- The method `checkAndSync()`. -/
def checkAndSync (self : AutoGit σ) : Eff σ Unit :=
  Eff.tryCatch
    (do
      self.log (utf16 "🔄 Starting sync check...")
      let status ← self.getStatus
      if status.files.length > 0 then do
        let filesChanged := join (status.files.map (fun f => f.path)) (utf16 ", ")
        let commitMessage := utf16 "Auto-commit: " ++ substring0 filesChanged 100
        let _ ← self.commitAndPush commitMessage defaultFiles
      let _ ← self.pullAndReload
      self.log (utf16 "✅ Sync check completed"))
    (fun error => self.logFailure (utf16 "❌ Sync failed: ") error)

/-- The cron expression `*/N * * * *` built by `startAutoSync`. -/
def cronExpression (syncInterval : JSNumber) : JSString :=
  utf16 "*/" ++ numberToString syncInterval ++ utf16 " * * * *"

/-- The method `startAutoSync()`; `schedule` is `cron.schedule` of the external
scheduler, applied to the expression (its callback runs `checkAndSync`). The
startup `checkAndSync()` is started and not awaited. -/
def startAutoSync (self : AutoGit σ) (schedule : JSString → σ → Except JSError Unit × σ) :
    Eff σ Unit :=
  if !self.config.autoSync then do
    self.log (utf16 "ℹ️  Auto-sync is disabled in configuration")
    return
  else do
    self.log (utf16 "🔄 Starting auto-sync (every "
      ++ numberToString self.config.syncInterval ++ utf16 " minutes)")
    invoke (Call.schedule (cronExpression self.config.syncInterval))
      (schedule (cronExpression self.config.syncInterval))
    Eff.detached self.checkAndSync

/-- The method `setReloadCallback(callback)`. -/
def setReloadCallback (self : AutoGit σ) (callback : ReloadCallback σ) : AutoGit σ :=
  { git := self.git, writeLog := self.writeLog, config := self.config,
    onReload := some callback }

end AutoGit

/-! ## The one-shot run of the script -/

/-- What the script gets from its imports and its process: the expression
`new SimpleGit()`, which may throw, the log sink and the environment. -/
structure Host (σ : Type) where
  newSimpleGit : σ → Except JSError (GitClient σ) × σ
  writeLog : LogSink σ
  env : ProcessEnv

/-- The expression `new AutoGit()`: the constructor creates the git client
first and throws when that throws. -/
def AutoGit.construct {σ : Type} (host : Host σ) (w : σ) : Except JSError (AutoGit σ) × σ :=
  match host.newSimpleGit w with
  | (Except.ok git, w1) =>
    (Except.ok
      { git := git, writeLog := host.writeLog, config := constructorConfig host.env,
        onReload := none }, w1)
  | (Except.error e, w1) => (Except.error e, w1)

/-- How the one-shot run ends: in the `then` branch (`process.exit(0)`), in the
`catch` branch (`process.exit(1)`), or with the exception that `new AutoGit()`
throws outside the promise chain, on which the process exits with code 1. -/
inductive Exit where
  | thenBranch
  | catchBranch
  | uncaughtException
deriving DecidableEq, Repr

/-- The exit code of the process. -/
def Exit.code : Exit → Nat
  | Exit.thenBranch => 0
  | Exit.catchBranch => 1
  | Exit.uncaughtException => 1

/-- The one-shot run of the script (`require.main === module`): a new
instance, one `checkAndSync` cycle, then the exit. -/
def runDirectly {σ : Type} (host : Host σ) (s : Sys σ) : Exit × Sys σ :=
  match AutoGit.construct host s.world with
  | (Except.error _, w1) =>
    (Exit.uncaughtException, { world := w1, log := s.log, trace := s.trace })
  | (Except.ok autoGit, w1) =>
    match autoGit.checkAndSync { world := w1, log := s.log, trace := s.trace } with
    | (Except.ok _, s1) => (Exit.thenBranch, s1)
    | (Except.error _, s1) => (Exit.catchBranch, s1)

/-! ## The schedule -/

/-- Modelled from the spec: the scheduler (node-cron) is an external library;
the minute field `*/N` of the expression matches the minutes `m` of `0..59`
with `m mod N = 0`, in every hour. `t` counts minutes from the top of an hour. -/
def firesAt (N : Nat) (t : Nat) : Bool :=
  (t % 60) % N == 0

/-- Two ticks of the schedule with no tick between them. -/
def ConsecutiveTicks (N : Nat) (t1 t2 : Nat) : Prop :=
  firesAt N t1 = true ∧ firesAt N t2 = true ∧ t1 < t2 ∧
    ∀ t, t1 < t → t < t2 → firesAt N t = false

/-! ## A concrete repository, for evaluating the controller -/

/-- A small concrete world: the changed files of the working tree, the staged
paths, the number of commits the remote is ahead by, whether the remote can be
reached, and how many times the host has reloaded. -/
structure DemoRepo where
  changed : List FileStatus
  staged : List JSString
  behind : Nat
  online : Bool
  reloads : Nat
deriving DecidableEq, Repr

/-- A git client on `DemoRepo` whose status objects carry a `staging` array;
`push` and `pull` reject when the remote cannot be reached. -/
def demoGit : GitClient DemoRepo where
  status w :=
    (Except.ok
      { current := utf16 "main"
        files := w.changed
        ahead := 0
        behind := w.behind
        tracking := some (utf16 "origin/main")
        staging := Staging.array w.staged }, w)
  add _ w :=
    (Except.ok (),
      { changed := w.changed, staged := w.changed.map (fun f => f.path), behind := w.behind,
        online := w.online, reloads := w.reloads })
  commit _ w :=
    (Except.ok (),
      { changed := [], staged := [], behind := w.behind, online := w.online,
        reloads := w.reloads })
  push _ _ w :=
    if w.online then (Except.ok (), w)
    else (Except.error (JSError.object (utf16 "remote unreachable")), w)
  pull _ _ w :=
    if w.online then
      (Except.ok (),
        { changed := w.changed, staged := w.staged, behind := 0, online := w.online,
          reloads := w.reloads })
    else (Except.error (JSError.object (utf16 "remote unreachable")), w)

/-- The client `demoGit` with status objects as the `simple-git` package
builds them: the staged paths are under `staged` and there is no `staging`
property. -/
def packageGit : GitClient DemoRepo where
  status w :=
    (Except.ok
      { current := utf16 "main"
        files := w.changed
        ahead := 0
        behind := w.behind
        tracking := some (utf16 "origin/main")
        staging := Staging.missing }, w)
  add := demoGit.add
  commit := demoGit.commit
  push := demoGit.push
  pull := demoGit.pull

/-- A git client every operation of which rejects with an error object. -/
def brokenGit : GitClient DemoRepo where
  status w := (Except.error (JSError.object (utf16 "not a git repository")), w)
  add _ w := (Except.error (JSError.object (utf16 "not a git repository")), w)
  commit _ w := (Except.error (JSError.object (utf16 "not a git repository")), w)
  push _ _ w := (Except.error (JSError.object (utf16 "not a git repository")), w)
  pull _ _ w := (Except.error (JSError.object (utf16 "not a git repository")), w)

/-- A git client every operation of which rejects with `thrown`. -/
def rejectingGit (thrown : JSError) : GitClient DemoRepo where
  status w := (Except.error thrown, w)
  add _ w := (Except.error thrown, w)
  commit _ w := (Except.error thrown, w)
  push _ _ w := (Except.error thrown, w)
  pull _ _ w := (Except.error thrown, w)

/-- A log sink that accepts every line. -/
def demoLog : LogSink DemoRepo :=
  fun _ w => (Except.ok (), w)

/-- A log sink that cannot be written to. -/
def unwritableLog : LogSink DemoRepo :=
  fun _ w => (Except.error (JSError.object (utf16 "EACCES: permission denied")), w)

/-- A reload callback on `DemoRepo` that counts its invocations. -/
def demoReload : ReloadCallback DemoRepo :=
  fun w =>
    (Except.ok (),
      { changed := w.changed, staged := w.staged, behind := w.behind, online := w.online,
        reloads := w.reloads + 1 })

/-- A reload callback on `DemoRepo` that throws an error object. -/
def demoReloadThrows : ReloadCallback DemoRepo :=
  fun w => (Except.error (JSError.object (utf16 "reload failed")), w)

/-- A reload callback on `DemoRepo` that rejects with `undefined`. -/
def demoReloadRejectsUndefined : ReloadCallback DemoRepo :=
  fun w => (Except.error JSError.undefined, w)

/-- The configuration of the environment with no variable set. -/
def demoConfig : Config :=
  constructorConfig emptyEnv

/-- A controller on `DemoRepo` with no reload callback registered. -/
def demoAutoGit : AutoGit DemoRepo :=
  { git := demoGit, writeLog := demoLog, config := demoConfig, onReload := none }

/-- A controller on the client with the status objects of the package. -/
def packageAutoGit : AutoGit DemoRepo :=
  { git := packageGit, writeLog := demoLog, config := demoConfig, onReload := none }

/-- A controller on the rejecting client. -/
def brokenAutoGit : AutoGit DemoRepo :=
  { git := brokenGit, writeLog := demoLog, config := demoConfig, onReload := none }

/-- A controller whose log sink cannot be written to. -/
def unloggedAutoGit : AutoGit DemoRepo :=
  { git := demoGit, writeLog := unwritableLog, config := demoConfig, onReload := none }

/-- A host whose `new SimpleGit()` yields `demoGit`. -/
def demoHost : Host DemoRepo :=
  { newSimpleGit := fun w => (Except.ok demoGit, w), writeLog := demoLog, env := emptyEnv }

/-- A host as with the `simple-git` package, which exports no constructor
`SimpleGit`: `new SimpleGit()` throws a `TypeError`. -/
def packageHost : Host DemoRepo :=
  { newSimpleGit := fun w =>
      (Except.error (JSError.object (utf16 "SimpleGit is not a constructor")), w)
    writeLog := demoLog
    env := emptyEnv }

/-- A clean working tree level with its remote. -/
def demoClean : DemoRepo :=
  { changed := [], staged := [], behind := 0, online := true, reloads := 0 }

/-- A clean working tree three commits behind its remote. -/
def demoBehind : DemoRepo :=
  { changed := [], staged := [], behind := 3, online := true, reloads := 0 }

/-- A clean working tree three commits behind a remote that cannot be reached. -/
def demoBehindOffline : DemoRepo :=
  { changed := [], staged := [], behind := 3, online := false, reloads := 0 }

/-- A working tree with five changed files whose joined paths exceed 100 code
units. -/
def demoManyFiles : DemoRepo :=
  { changed := [{ path := utf16 "src/bot/commands/trading/buy.js", kind := utf16 "M" },
      { path := utf16 "src/bot/commands/trading/sell.js", kind := utf16 "M" },
      { path := utf16 "src/bot/events/interactionCreate.js", kind := utf16 "A" },
      { path := utf16 "scripts/deploy-commands.ts", kind := utf16 "M" },
      { path := utf16 "README.md", kind := utf16 "M" }]
    staged := [], behind := 0, online := true, reloads := 0 }

/-- The state of the demo working tree after its five files are committed. -/
def demoCommitted : DemoRepo :=
  { changed := [], staged := [], behind := 0, online := true, reloads := 0 }

/-- The environment with `GITHUB_AUTO_SYNC=true` and `GITHUB_SYNC_INTERVAL=7`. -/
def demoEnvEvery7 : ProcessEnv :=
  fun name =>
    if name = "GITHUB_AUTO_SYNC" then some (utf16 "true")
    else if name = "GITHUB_SYNC_INTERVAL" then some (utf16 "7")
    else none

/-- A scheduler that accepts every expression. -/
def demoSchedule : JSString → DemoRepo → Except JSError Unit × DemoRepo :=
  fun _ w => (Except.ok (), w)

/-- The state before anything has run in the world `w`. -/
def start {σ : Type} (w : σ) : Sys σ :=
  { world := w, log := [], trace := [] }

/-- The state a `checkAndSync` cycle leaves when it starts in `s` and finds
nothing to commit and nothing to pull: two status queries, three log lines. -/
def afterIdleCycle {σ : Type} (s : Sys σ) : Sys σ :=
  { world := s.world
    log := s.log ++ [utf16 "🔄 Starting sync check...", utf16 "✅ Already up to date",
      utf16 "✅ Sync check completed"]
    trace := s.trace ++ [(Call.status, true), (Call.status, true)] }

/-! ## Theorems -/

section Theorems

variable {σ : Type}

/-! ### Helper lemmas: which rejections a computation can end in -/

theorem readMessage_cases (e : JSError) :
    (∃ m, e.readMessage = Except.ok m ∧ e.depth = 0) ∨
    (∃ t, e.readMessage = Except.error t ∧ t.depth + 1 = e.depth) := by
  cases e with
  | object m => exact Or.inl ⟨m, rfl, rfl⟩
  | null => exact Or.inr ⟨_, rfl, rfl⟩
  | undefined => exact Or.inr ⟨_, rfl, rfl⟩
  | messageThrows t => exact Or.inr ⟨t, rfl, rfl⟩

theorem settles_mono {α : Type} {d d1 : Nat} {m : Eff σ α} (hle : d ≤ d1)
    (h : SettlesBelow d m) : SettlesBelow d1 m := by
  intro s
  rcases h s with ha | ⟨e, he, hd⟩
  · exact Or.inl ha
  · exact Or.inr ⟨e, he, by omega⟩

theorem settles_pure {α : Type} (d : Nat) (a : α) : SettlesBelow d (pure a : Eff σ α) :=
  fun _ => Or.inl ⟨a, rfl⟩

theorem settles_bind {α β : Type} {d : Nat} {m : Eff σ α} {f : α → Eff σ β}
    (hm : SettlesBelow d m) (hf : ∀ a, SettlesBelow d (f a)) : SettlesBelow d (m >>= f) := by
  intro s
  have hb : (m >>= f) s = Eff.bind m f s := rfl
  rw [hb]
  rcases hr : m s with ⟨r, s1⟩
  rcases hm s with ⟨a, ha⟩ | ⟨e, he, hd⟩
  · rw [hr] at ha
    cases ha
    simpa [Eff.bind, hr] using hf a s1
  · rw [hr] at he
    cases he
    exact Or.inr ⟨e, by simp [Eff.bind, hr], hd⟩

theorem settles_tryCatch {α : Type} (d1 : Nat) {d2 : Nat} {body : Eff σ α}
    {handler : JSError → Eff σ α} (hbody : SettlesBelow d1 body)
    (hhandler : ∀ e, e.depth < d1 → SettlesBelow d2 (handler e)) :
    SettlesBelow d2 (Eff.tryCatch body handler) := by
  intro s
  rcases hr : body s with ⟨r, s1⟩
  rcases hbody s with ⟨a, ha⟩ | ⟨e, he, hd⟩
  · rw [hr] at ha
    cases ha
    exact Or.inl ⟨a, by simp [Eff.tryCatch, hr]⟩
  · rw [hr] at he
    cases he
    simpa [Eff.tryCatch, hr] using hhandler e hd s1

theorem settles_log (self : AutoGit σ) (hlog : ∀ m w, (self.writeLog m w).1 = Except.ok ())
    (d : Nat) (message : JSString) : SettlesBelow d (self.log message) := by
  intro s
  exact Or.inl ⟨(), by simp [AutoGit.log, hlog]⟩

theorem settles_invoke {α : Type} {d : Nat} (c : Call) (op : σ → Except JSError α × σ)
    (h : ∀ w e, (op w).1 = Except.error e → e.depth < d) : SettlesBelow d (invoke c op) := by
  intro s
  rcases hr : (op s.world).1 with e | a
  · exact Or.inr ⟨e, by simp [invoke, hr], h s.world e hr⟩
  · exact Or.inl ⟨a, by simp [invoke, hr]⟩

theorem settles_throw {α : Type} {d : Nat} (e : JSError) (h : e.depth < d) :
    SettlesBelow d (Eff.throw e : Eff σ α) :=
  fun _ => Or.inr ⟨e, rfl, h⟩

theorem settles_stagingLength (d : Nat) (staging : Staging) :
    SettlesBelow (d + 1) (Eff.ofExcept staging.length : Eff σ Nat) := by
  intro s
  cases staging with
  | missing =>
    exact Or.inr ⟨_, rfl, by simp [typeErrorReading, JSError.depth]⟩
  | array paths => exact Or.inl ⟨paths.length, rfl⟩

theorem settles_logFailure (self : AutoGit σ)
    (hlog : ∀ m w, (self.writeLog m w).1 = Except.ok ()) (d : Nat) (label : JSString)
    (e : JSError) (h : e.depth < d + 1) : SettlesBelow d (self.logFailure label e) := by
  intro s
  rcases readMessage_cases e with ⟨m, hm, _⟩ | ⟨t, ht, hd⟩
  · exact Or.inl ⟨(), by simp [AutoGit.logFailure, bind, Eff.bind, Eff.ofExcept, hm, AutoGit.log,
      hlog]⟩
  · exact Or.inr ⟨t, by simp [AutoGit.logFailure, bind, Eff.bind, Eff.ofExcept, ht], by omega⟩

theorem getStatus_of_ok (self : AutoGit σ) (s : Sys σ) (st : StatusResult) (w1 : σ)
    (h : self.git.status s.world = (Except.ok st, w1)) :
    self.getStatus s =
      (Except.ok (RepositoryStatus.mk st.current st.files st.ahead st.behind st.tracking),
        { world := w1, log := s.log, trace := s.trace ++ [(Call.status, true)] }) := by
  simp [AutoGit.getStatus, Eff.tryCatch, bind, Eff.bind, pure, Eff.pure, invoke, h, resolved]

theorem getStatus_settles (self : AutoGit σ)
    (hlog : ∀ m w, (self.writeLog m w).1 = Except.ok ())
    (hstatus : ∀ w e, (self.git.status w).1 = Except.error e → e.depth < 2) :
    SettlesBelow 1 self.getStatus := by
  intro s
  rcases hr : self.git.status s.world with ⟨e | st, w1⟩
  · have hd := hstatus s.world e (by rw [hr])
    rcases readMessage_cases e with ⟨m, hm, h0⟩ | ⟨t, ht, hdep⟩
    · exact Or.inr ⟨e, by simp [AutoGit.getStatus, Eff.tryCatch, bind, Eff.bind, invoke, hr,
        AutoGit.logFailure, Eff.ofExcept, hm, AutoGit.log, hlog, Eff.throw], by omega⟩
    · exact Or.inr ⟨t, by simp [AutoGit.getStatus, Eff.tryCatch, bind, Eff.bind, invoke, hr,
        AutoGit.logFailure, Eff.ofExcept, ht], by omega⟩
  · exact Or.inl ⟨_, by rw [getStatus_of_ok self s st w1 hr]⟩

theorem commitAndPush_settles (self : AutoGit σ) (message : JSString) (files : PathSet)
    (d : Nat) (hlog : ∀ m w, (self.writeLog m w).1 = Except.ok ())
    (hadd : ∀ w e, (self.git.add files w).1 = Except.error e → e.depth < d + 1)
    (hstatus : ∀ w e, (self.git.status w).1 = Except.error e → e.depth < d + 1)
    (hcommit : ∀ w e, (self.git.commit message w).1 = Except.error e → e.depth < d + 1)
    (hpush : ∀ w e, (self.git.push (utf16 "origin") self.config.branch w).1 = Except.error e →
      e.depth < d + 1) :
    SettlesBelow d (self.commitAndPush message files) := by
  unfold AutoGit.commitAndPush
  refine settles_tryCatch (d + 1) ?_ ?_
  · refine settles_bind (settles_log self hlog _ _) (fun _ => ?_)
    refine settles_bind (settles_invoke _ _ hadd) (fun _ => ?_)
    refine settles_bind (settles_invoke _ _ hstatus) (fun st => ?_)
    refine settles_bind (settles_stagingLength d st.staging) (fun staged => ?_)
    split
    · exact settles_bind (settles_log self hlog _ _) (fun _ => settles_pure _ _)
    · refine settles_bind (settles_invoke _ _ hcommit) (fun _ => ?_)
      refine settles_bind (settles_log self hlog _ _) (fun _ => ?_)
      refine settles_bind (settles_invoke _ _ hpush) (fun _ => ?_)
      exact settles_bind (settles_log self hlog _ _) (fun _ => settles_pure _ _)
  · intro e he
    exact settles_bind (settles_logFailure self hlog d _ e he) (fun _ => settles_pure _ _)

theorem pullAndReload_settles (self : AutoGit σ) (d : Nat)
    (hlog : ∀ m w, (self.writeLog m w).1 = Except.ok ())
    (hstatus : ∀ w e, (self.git.status w).1 = Except.error e → e.depth < 2)
    (hpull : ∀ w e, (self.git.pull (utf16 "origin") self.config.branch w).1 = Except.error e →
      e.depth < d + 1)
    (hreload : ∀ onReload, self.onReload = some onReload →
      ∀ w e, (onReload w).1 = Except.error e → e.depth < d + 1) :
    SettlesBelow d self.pullAndReload := by
  unfold AutoGit.pullAndReload
  refine settles_tryCatch (d + 1) ?_ ?_
  · refine settles_bind (settles_mono (by omega) (getStatus_settles self hlog hstatus))
      (fun st => ?_)
    split
    · refine settles_bind (settles_log self hlog _ _) (fun _ => ?_)
      refine settles_bind (settles_invoke _ _ hpull) (fun _ => ?_)
      refine settles_bind (settles_log self hlog _ _) (fun _ => ?_)
      rcases hcb : self.onReload with _ | onReload
      · exact settles_bind (settles_pure _ _) (fun _ => settles_pure _ _)
      · exact settles_bind (settles_invoke _ _ (hreload onReload hcb))
          (fun _ => settles_pure _ _)
    · exact settles_bind (settles_log self hlog _ _) (fun _ => settles_pure _ _)
  · intro e he
    exact settles_bind (settles_logFailure self hlog d _ e he) (fun _ => settles_pure _ _)

theorem checkAndSync_settles (self : AutoGit σ)
    (hlog : ∀ m w, (self.writeLog m w).1 = Except.ok ())
    (hstatus : ∀ w e, (self.git.status w).1 = Except.error e → e.depth < 2)
    (hadd : ∀ files w e, (self.git.add files w).1 = Except.error e → e.depth < 2)
    (hcommit : ∀ message w e, (self.git.commit message w).1 = Except.error e → e.depth < 2)
    (hpush : ∀ remote branch w e, (self.git.push remote branch w).1 = Except.error e →
      e.depth < 2)
    (hpull : ∀ remote branch w e, (self.git.pull remote branch w).1 = Except.error e →
      e.depth < 2)
    (hreload : ∀ onReload, self.onReload = some onReload →
      ∀ w e, (onReload w).1 = Except.error e → e.depth < 2) :
    SettlesBelow 0 self.checkAndSync := by
  unfold AutoGit.checkAndSync
  refine settles_tryCatch 1 ?_ ?_
  · refine settles_bind (settles_log self hlog _ _) (fun _ => ?_)
    refine settles_bind (getStatus_settles self hlog hstatus) (fun st => ?_)
    have hpr : SettlesBelow 1 self.pullAndReload :=
      pullAndReload_settles self 1 hlog hstatus (hpull _ _) hreload
    split
    · refine settles_bind ?_ (fun _ => ?_)
      · exact commitAndPush_settles self _ _ 1 hlog (hadd _) hstatus (hcommit _) (hpush _ _)
      · refine settles_bind (settles_pure _ _) (fun _ => ?_)
        refine settles_bind hpr (fun _ => ?_)
        exact settles_log self hlog _ _
    · refine settles_bind (settles_pure _ _) (fun _ => ?_)
      refine settles_bind hpr (fun _ => ?_)
      exact settles_log self hlog _ _
  · intro e he
    exact settles_logFailure self hlog 0 _ e he

/-! ### `commitAndPush` -/

/-- C1 (counterexample): `commitAndPush` can reject, and can return `false`
with no git operation failing. When `git.add` rejects with `undefined` the
catch block throws on `error.message` and the call rejects; when the log sink
cannot be written to the call rejects before any git operation; and on a
status object without `staging` the result is `false` although add and status
both resolved. -/
theorem commitAndPush_rejects_counterexample :
    (({ git := rejectingGit JSError.undefined, writeLog := demoLog, config := demoConfig,
        onReload := none } : AutoGit DemoRepo).commitAndPush (utf16 "Manual sync: operator")
        AutoGit.defaultFiles (start demoClean)).1 =
      Except.error (typeErrorReading "message" "undefined") ∧
    (unloggedAutoGit.commitAndPush (utf16 "Manual sync: operator") AutoGit.defaultFiles
        (start demoClean)).1 =
      Except.error (JSError.object (utf16 "EACCES: permission denied")) ∧
    (packageAutoGit.commitAndPush (utf16 "Manual sync: operator") AutoGit.defaultFiles
        (start demoClean)).1 = Except.ok false ∧
    (packageAutoGit.commitAndPush (utf16 "Manual sync: operator") AutoGit.defaultFiles
        (start demoClean)).2.trace = [(Call.add AutoGit.defaultFiles, true), (Call.status, true)] :=
  ⟨rfl, rfl, rfl, rfl⟩

/-- C1 (amended): for a git client whose add, status, commit and push reject
only with error objects whose message can be read, whose status objects carry
a `staging` array, and with a log sink that accepts every line,
`commitAndPush` never rejects: it resolves to a boolean `b`; the calls it made
are a non-empty initial part of add, status, commit (of the message), push (to
`origin` and the configured branch), in that order; and `b` is `false` exactly
when one of those calls failed. With nothing staged the run is add, status and
the result `true`; with something staged and commit and push resolving it is
add, status, commit, push and the result `true`; a failing add, status, commit
or push ends the run there with the result `false`. -/
theorem commitAndPush_false_iff_git_failure (self : AutoGit σ) (message : JSString)
    (files : PathSet) (s : Sys σ)
    (hlog : ∀ m w, (self.writeLog m w).1 = Except.ok ())
    (hadd : ∀ w e, (self.git.add files w).1 = Except.error e → e.depth = 0)
    (hstatus : ∀ w e, (self.git.status w).1 = Except.error e → e.depth = 0)
    (hcommit : ∀ w e, (self.git.commit message w).1 = Except.error e → e.depth = 0)
    (hpush : ∀ w e, (self.git.push (utf16 "origin") self.config.branch w).1 = Except.error e →
      e.depth = 0)
    (hstaging : ∀ w st, (self.git.status w).1 = Except.ok st →
      ∃ paths, st.staging = Staging.array paths) :
    (∃ b calls,
      (self.commitAndPush message files s).1 = Except.ok b ∧
      (self.commitAndPush message files s).2.trace = s.trace ++ calls ∧
      calls ≠ [] ∧
      calls.map Prod.fst <+: [Call.add files, Call.status, Call.commit message,
        Call.push (utf16 "origin") self.config.branch] ∧
      (b = false ↔ ∃ c ∈ calls, c.2 = false)) ∧
    (∀ w1 st w2,
      self.git.add files (self.writeLog (utf16 "📝 Committing changes: " ++ message) s.world).2
        = (Except.ok (), w1) →
      self.git.status w1 = (Except.ok st, w2) →
      st.staging = Staging.array [] →
      self.commitAndPush message files s =
        (Except.ok true,
          { world := (self.writeLog (utf16 "ℹ️  No changes to commit") w2).2
            log := s.log ++ [utf16 "📝 Committing changes: " ++ message,
              utf16 "ℹ️  No changes to commit"]
            trace := s.trace ++ [(Call.add files, true), (Call.status, true)] })) ∧
    (∀ w1 st paths w2 w3 w4,
      self.git.add files (self.writeLog (utf16 "📝 Committing changes: " ++ message) s.world).2
        = (Except.ok (), w1) →
      self.git.status w1 = (Except.ok st, w2) →
      st.staging = Staging.array paths → paths ≠ [] →
      self.git.commit message w2 = (Except.ok (), w3) →
      self.git.push (utf16 "origin") self.config.branch
        (self.writeLog (utf16 "✅ Changes committed") w3).2 = (Except.ok (), w4) →
      self.commitAndPush message files s =
        (Except.ok true,
          { world := (self.writeLog
              (utf16 "✅ Changes pushed to origin/" ++ self.config.branch) w4).2
            log := s.log ++ [utf16 "📝 Committing changes: " ++ message,
              utf16 "✅ Changes committed",
              utf16 "✅ Changes pushed to origin/" ++ self.config.branch]
            trace := s.trace ++ [(Call.add files, true), (Call.status, true),
              (Call.commit message, true),
              (Call.push (utf16 "origin") self.config.branch, true)] })) ∧
    (∀ e w1,
      self.git.add files (self.writeLog (utf16 "📝 Committing changes: " ++ message) s.world).2
        = (Except.error e, w1) →
      (self.commitAndPush message files s).1 = Except.ok false ∧
      (self.commitAndPush message files s).2.trace = s.trace ++ [(Call.add files, false)]) ∧
    (∀ w1 e w2,
      self.git.add files (self.writeLog (utf16 "📝 Committing changes: " ++ message) s.world).2
        = (Except.ok (), w1) →
      self.git.status w1 = (Except.error e, w2) →
      (self.commitAndPush message files s).1 = Except.ok false ∧
      (self.commitAndPush message files s).2.trace =
        s.trace ++ [(Call.add files, true), (Call.status, false)]) ∧
    (∀ w1 st paths w2 e w3,
      self.git.add files (self.writeLog (utf16 "📝 Committing changes: " ++ message) s.world).2
        = (Except.ok (), w1) →
      self.git.status w1 = (Except.ok st, w2) →
      st.staging = Staging.array paths → paths ≠ [] →
      self.git.commit message w2 = (Except.error e, w3) →
      (self.commitAndPush message files s).1 = Except.ok false ∧
      (self.commitAndPush message files s).2.trace =
        s.trace ++ [(Call.add files, true), (Call.status, true), (Call.commit message, false)]) ∧
    (∀ w1 st paths w2 w3 e w4,
      self.git.add files (self.writeLog (utf16 "📝 Committing changes: " ++ message) s.world).2
        = (Except.ok (), w1) →
      self.git.status w1 = (Except.ok st, w2) →
      st.staging = Staging.array paths → paths ≠ [] →
      self.git.commit message w2 = (Except.ok (), w3) →
      self.git.push (utf16 "origin") self.config.branch
        (self.writeLog (utf16 "✅ Changes committed") w3).2 = (Except.error e, w4) →
      (self.commitAndPush message files s).1 = Except.ok false ∧
      (self.commitAndPush message files s).2.trace =
        s.trace ++ [(Call.add files, true), (Call.status, true), (Call.commit message, true),
          (Call.push (utf16 "origin") self.config.branch, false)]) := by
  have readable : ∀ e : JSError, e.depth = 0 → ∃ m, e = JSError.object m := by
    intro e he
    cases e with
    | object m => exact ⟨m, rfl⟩
    | null => simp [JSError.depth] at he
    | undefined => simp [JSError.depth] at he
    | messageThrows t => simp [JSError.depth] at he
  have caseAdd : ∀ e w1,
      self.git.add files (self.writeLog (utf16 "📝 Committing changes: " ++ message) s.world).2
        = (Except.error e, w1) →
      (self.commitAndPush message files s).1 = Except.ok false ∧
      (self.commitAndPush message files s).2.trace = s.trace ++ [(Call.add files, false)] := by
    intro e w1 h
    obtain ⟨m, rfl⟩ := readable e (hadd _ e (by rw [h]))
    simp [AutoGit.commitAndPush, Eff.tryCatch, bind, Eff.bind, pure, Eff.pure, AutoGit.log,
      AutoGit.logFailure, Eff.ofExcept, JSError.readMessage, invoke, resolved, hlog, h]
  have caseStatus : ∀ w1 e w2,
      self.git.add files (self.writeLog (utf16 "📝 Committing changes: " ++ message) s.world).2
        = (Except.ok (), w1) →
      self.git.status w1 = (Except.error e, w2) →
      (self.commitAndPush message files s).1 = Except.ok false ∧
      (self.commitAndPush message files s).2.trace =
        s.trace ++ [(Call.add files, true), (Call.status, false)] := by
    intro w1 e w2 h1 h2
    obtain ⟨m, rfl⟩ := readable e (hstatus _ e (by rw [h2]))
    simp [AutoGit.commitAndPush, Eff.tryCatch, bind, Eff.bind, pure, Eff.pure, AutoGit.log,
      AutoGit.logFailure, Eff.ofExcept, JSError.readMessage, invoke, resolved, hlog, h1, h2]
  have caseEmpty : ∀ w1 st w2,
      self.git.add files (self.writeLog (utf16 "📝 Committing changes: " ++ message) s.world).2
        = (Except.ok (), w1) →
      self.git.status w1 = (Except.ok st, w2) →
      st.staging = Staging.array [] →
      self.commitAndPush message files s =
        (Except.ok true,
          { world := (self.writeLog (utf16 "ℹ️  No changes to commit") w2).2
            log := s.log ++ [utf16 "📝 Committing changes: " ++ message,
              utf16 "ℹ️  No changes to commit"]
            trace := s.trace ++ [(Call.add files, true), (Call.status, true)] }) := by
    intro w1 st w2 h1 h2 h3
    simp [AutoGit.commitAndPush, Eff.tryCatch, bind, Eff.bind, pure, Eff.pure, AutoGit.log,
      Eff.ofExcept, Staging.length, invoke, resolved, hlog, h1, h2, h3]
  have caseCommit : ∀ w1 st paths w2 e w3,
      self.git.add files (self.writeLog (utf16 "📝 Committing changes: " ++ message) s.world).2
        = (Except.ok (), w1) →
      self.git.status w1 = (Except.ok st, w2) →
      st.staging = Staging.array paths → paths ≠ [] →
      self.git.commit message w2 = (Except.error e, w3) →
      (self.commitAndPush message files s).1 = Except.ok false ∧
      (self.commitAndPush message files s).2.trace =
        s.trace ++ [(Call.add files, true), (Call.status, true),
          (Call.commit message, false)] := by
    intro w1 st paths w2 e w3 h1 h2 h3 h4 h5
    obtain ⟨m, rfl⟩ := readable e (hcommit _ e (by rw [h5]))
    simp [AutoGit.commitAndPush, Eff.tryCatch, bind, Eff.bind, pure, Eff.pure, AutoGit.log,
      AutoGit.logFailure, Eff.ofExcept, JSError.readMessage, Staging.length, invoke, resolved,
      hlog, h1, h2, h3, h4, h5]
  have casePush : ∀ w1 st paths w2 w3 e w4,
      self.git.add files (self.writeLog (utf16 "📝 Committing changes: " ++ message) s.world).2
        = (Except.ok (), w1) →
      self.git.status w1 = (Except.ok st, w2) →
      st.staging = Staging.array paths → paths ≠ [] →
      self.git.commit message w2 = (Except.ok (), w3) →
      self.git.push (utf16 "origin") self.config.branch
        (self.writeLog (utf16 "✅ Changes committed") w3).2 = (Except.error e, w4) →
      (self.commitAndPush message files s).1 = Except.ok false ∧
      (self.commitAndPush message files s).2.trace =
        s.trace ++ [(Call.add files, true), (Call.status, true), (Call.commit message, true),
          (Call.push (utf16 "origin") self.config.branch, false)] := by
    intro w1 st paths w2 w3 e w4 h1 h2 h3 h4 h5 h6
    obtain ⟨m, rfl⟩ := readable e (hpush _ e (by rw [h6]))
    simp [AutoGit.commitAndPush, Eff.tryCatch, bind, Eff.bind, pure, Eff.pure, AutoGit.log,
      AutoGit.logFailure, Eff.ofExcept, JSError.readMessage, Staging.length, invoke, resolved,
      hlog, h1, h2, h3, h4, h5, h6]
  have caseDone : ∀ w1 st paths w2 w3 w4,
      self.git.add files (self.writeLog (utf16 "📝 Committing changes: " ++ message) s.world).2
        = (Except.ok (), w1) →
      self.git.status w1 = (Except.ok st, w2) →
      st.staging = Staging.array paths → paths ≠ [] →
      self.git.commit message w2 = (Except.ok (), w3) →
      self.git.push (utf16 "origin") self.config.branch
        (self.writeLog (utf16 "✅ Changes committed") w3).2 = (Except.ok (), w4) →
      self.commitAndPush message files s =
        (Except.ok true,
          { world := (self.writeLog
              (utf16 "✅ Changes pushed to origin/" ++ self.config.branch) w4).2
            log := s.log ++ [utf16 "📝 Committing changes: " ++ message,
              utf16 "✅ Changes committed",
              utf16 "✅ Changes pushed to origin/" ++ self.config.branch]
            trace := s.trace ++ [(Call.add files, true), (Call.status, true),
              (Call.commit message, true),
              (Call.push (utf16 "origin") self.config.branch, true)] }) := by
    intro w1 st paths w2 w3 w4 h1 h2 h3 h4 h5 h6
    simp [AutoGit.commitAndPush, Eff.tryCatch, bind, Eff.bind, pure, Eff.pure, AutoGit.log,
      Eff.ofExcept, Staging.length, invoke, resolved, hlog, h1, h2, h3, h4, h5, h6]
  refine ⟨?_, caseEmpty, caseDone, caseAdd, caseStatus, caseCommit, casePush⟩
  rcases h1 : self.git.add files
    (self.writeLog (utf16 "📝 Committing changes: " ++ message) s.world).2 with ⟨e | _, w1⟩
  · obtain ⟨hr, ht⟩ := caseAdd e w1 h1
    exact ⟨false, [(Call.add files, false)], hr, ht, by simp, ⟨_, rfl⟩, by simp⟩
  · rcases h2 : self.git.status w1 with ⟨e | st, w2⟩
    · obtain ⟨hr, ht⟩ := caseStatus w1 e w2 h1 h2
      exact ⟨false, [(Call.add files, true), (Call.status, false)], hr, ht, by simp,
        ⟨_, rfl⟩, by simp⟩
    · obtain ⟨paths, h3⟩ := hstaging w1 st (by rw [h2])
      by_cases h4 : paths = []
      · subst h4
        have hr := caseEmpty w1 st w2 h1 h2 h3
        exact ⟨true, [(Call.add files, true), (Call.status, true)], by rw [hr], by rw [hr],
          by simp, ⟨_, rfl⟩, by simp⟩
      · rcases h5 : self.git.commit message w2 with ⟨e | _, w3⟩
        · obtain ⟨hr, ht⟩ := caseCommit w1 st paths w2 e w3 h1 h2 h3 h4 h5
          exact ⟨false, [(Call.add files, true), (Call.status, true),
            (Call.commit message, false)], hr, ht, by simp, ⟨_, rfl⟩, by simp⟩
        · rcases h6 : self.git.push (utf16 "origin") self.config.branch
            (self.writeLog (utf16 "✅ Changes committed") w3).2 with ⟨e | _, w4⟩
          · obtain ⟨hr, ht⟩ := casePush w1 st paths w2 w3 e w4 h1 h2 h3 h4 h5 h6
            exact ⟨false, [(Call.add files, true), (Call.status, true),
              (Call.commit message, true),
              (Call.push (utf16 "origin") self.config.branch, false)], hr, ht, by simp,
              ⟨_, rfl⟩, by simp⟩
          · have hr := caseDone w1 st paths w2 w3 w4 h1 h2 h3 h4 h5 h6
            exact ⟨true, [(Call.add files, true), (Call.status, true),
              (Call.commit message, true),
              (Call.push (utf16 "origin") self.config.branch, true)], by rw [hr], by rw [hr],
              by simp, ⟨_, rfl⟩, by simp⟩

/-- Witness of C1 on the demo repository with five changed files: the client
and the log sink meet the hypotheses, the files are staged, committed and
pushed, and the result is `true`. -/
theorem commitAndPush_false_iff_git_failure_witness :
    demoAutoGit.commitAndPush (utf16 "Manual sync: operator") AutoGit.defaultFiles
        (start demoManyFiles) =
      (Except.ok true,
        { world := demoCommitted
          log := [utf16 "📝 Committing changes: " ++ utf16 "Manual sync: operator",
            utf16 "✅ Changes committed", utf16 "✅ Changes pushed to origin/" ++ utf16 "main"]
          trace := [(Call.add AutoGit.defaultFiles, true), (Call.status, true),
            (Call.commit (utf16 "Manual sync: operator"), true),
            (Call.push (utf16 "origin") (utf16 "main"), true)] }) :=
  (commitAndPush_false_iff_git_failure demoAutoGit (utf16 "Manual sync: operator")
    AutoGit.defaultFiles (start demoManyFiles)
    (fun _ _ => rfl)
    (fun _ _ h => by simp [demoAutoGit, demoGit] at h)
    (fun _ _ h => by simp [demoAutoGit, demoGit] at h)
    (fun _ _ h => by simp [demoAutoGit, demoGit] at h)
    (fun w e h => by
      simp only [demoAutoGit, demoGit] at h
      split at h
      · simp at h
      · simp at h
        subst h
        rfl)
    (fun w st h => by
      simp only [demoAutoGit, demoGit] at h
      simp at h
      subst h
      exact ⟨w.staged, rfl⟩)).2.2.1
    { changed := demoManyFiles.changed, staged := demoManyFiles.changed.map (fun f => f.path),
      behind := 0, online := true, reloads := 0 }
    { current := utf16 "main", files := demoManyFiles.changed, ahead := 0, behind := 0
      tracking := some (utf16 "origin/main")
      staging := Staging.array (demoManyFiles.changed.map (fun f => f.path)) }
    (demoManyFiles.changed.map (fun f => f.path))
    { changed := demoManyFiles.changed, staged := demoManyFiles.changed.map (fun f => f.path),
      behind := 0, online := true, reloads := 0 }
    demoCommitted demoCommitted rfl rfl rfl (by decide) rfl rfl

/-- C2 (failing input): on a clean working tree, with status objects as the
`simple-git` package builds them (no `staging` property), staging leaves zero
staged changes and `commitAndPush` makes one add and one status, throws on
`status.staging.length`, logs the failure and returns `false`, not `true`. -/
theorem commitAndPush_nothing_staged_returns_false :
    (packageGit.add AutoGit.defaultFiles demoClean).2.staged = [] ∧
    packageAutoGit.commitAndPush (utf16 "Manual sync: operator") AutoGit.defaultFiles
        (start demoClean) =
      (Except.ok false,
        { world := demoClean
          log := [utf16 "📝 Committing changes: " ++ utf16 "Manual sync: operator",
            utf16 "❌ Commit/Push failed: "
              ++ utf16 "Cannot read properties of undefined (reading \x27length\x27)"]
          trace := [(Call.add AutoGit.defaultFiles, true), (Call.status, true)] }) :=
  ⟨rfl, rfl⟩

/-! ### `pullAndReload` -/

/-- C3: with a reload callback registered through `setReloadCallback`, a status
query reporting `behind > 0`, and the pull, the callback and the two log
writes in between all resolving, `pullAndReload` makes exactly the calls
status, pull (on `origin` and the configured branch), reload, in that order,
and resolves to `true`. -/
theorem pullAndReload_pulls_then_reloads (self : AutoGit σ) (onReload : ReloadCallback σ)
    (s : Sys σ) (st : StatusResult) (w1 w2 w3 w4 w5 : σ)
    (hstatus : self.git.status s.world = (Except.ok st, w1))
    (hbehind : st.behind > 0)
    (hlogPulling : self.writeLog (utf16 "📥 Pulling " ++ numberToString (JSNumber.finite st.behind)
      ++ utf16 " commit(s) from GitHub...") w1 = (Except.ok (), w2))
    (hpull : self.git.pull (utf16 "origin") self.config.branch w2 = (Except.ok (), w3))
    (hlogPulled : self.writeLog (utf16 "✅ Changes pulled successfully") w3 = (Except.ok (), w4))
    (hreload : onReload w4 = (Except.ok (), w5)) :
    (self.setReloadCallback onReload).pullAndReload s =
      (Except.ok true,
        { world := w5
          log := s.log ++ [utf16 "📥 Pulling " ++ numberToString (JSNumber.finite st.behind)
              ++ utf16 " commit(s) from GitHub...",
            utf16 "✅ Changes pulled successfully"]
          trace := s.trace ++ [(Call.status, true),
            (Call.pull (utf16 "origin") self.config.branch, true), (Call.reload, true)] }) := by
  have hb : 0 < st.behind := hbehind
  have hs := getStatus_of_ok (self.setReloadCallback onReload) s st w1 hstatus
  have hgit : (self.setReloadCallback onReload).git = self.git := rfl
  have hsink : (self.setReloadCallback onReload).writeLog = self.writeLog := rfl
  have hcb : (self.setReloadCallback onReload).onReload = some onReload := rfl
  have hbr : (self.setReloadCallback onReload).config.branch = self.config.branch := rfl
  have hl1 := hlogPulling
  simp only [List.append_assoc] at hl1
  simp [AutoGit.pullAndReload, Eff.tryCatch, bind, Eff.bind, pure, Eff.pure, AutoGit.log,
    invoke, hs, hb, hgit, hsink, hcb, hbr, hl1, hpull, hlogPulled, hreload, resolved]

/-- Witness of C3 on the demo repository three commits behind its remote: one
pull, then one reload, and the result is `true`. -/
theorem pullAndReload_pulls_then_reloads_witness :
    (demoAutoGit.setReloadCallback demoReload).pullAndReload (start demoBehind) =
      (Except.ok true,
        { world := { changed := [], staged := [], behind := 0, online := true, reloads := 1 }
          log := [utf16 "📥 Pulling " ++ numberToString (JSNumber.finite 3)
              ++ utf16 " commit(s) from GitHub...",
            utf16 "✅ Changes pulled successfully"]
          trace := [(Call.status, true), (Call.pull (utf16 "origin") (utf16 "main"), true),
            (Call.reload, true)] }) :=
  pullAndReload_pulls_then_reloads demoAutoGit demoReload (start demoBehind)
    { current := utf16 "main", files := [], ahead := 0, behind := 3
      tracking := some (utf16 "origin/main"), staging := Staging.array [] }
    demoBehind demoBehind
    { changed := [], staged := [], behind := 0, online := true, reloads := 0 }
    { changed := [], staged := [], behind := 0, online := true, reloads := 0 }
    { changed := [], staged := [], behind := 0, online := true, reloads := 1 }
    rfl (by decide) rfl rfl rfl rfl

/-- C4: when the status query succeeds and reports `behind = 0` (and the log
write resolves), `pullAndReload` makes that status query and no other call (no
pull, no reload, whether or not a callback is registered) and resolves to
`false`. -/
theorem pullAndReload_skips_when_not_behind (self : AutoGit σ) (s : Sys σ)
    (st : StatusResult) (w1 w2 : σ)
    (hstatus : self.git.status s.world = (Except.ok st, w1))
    (hbehind : st.behind = 0)
    (hlogUpToDate : self.writeLog (utf16 "✅ Already up to date") w1 = (Except.ok (), w2)) :
    self.pullAndReload s =
      (Except.ok false,
        { world := w2
          log := s.log ++ [utf16 "✅ Already up to date"]
          trace := s.trace ++ [(Call.status, true)] }) := by
  simp [AutoGit.pullAndReload, Eff.tryCatch, bind, Eff.bind, pure, Eff.pure, AutoGit.log,
    getStatus_of_ok self s st w1 hstatus, hbehind, hlogUpToDate]

/-- Witness of C4 on the clean demo repository with a callback registered. -/
theorem pullAndReload_skips_when_not_behind_witness :
    (demoAutoGit.setReloadCallback demoReload).pullAndReload (start demoClean) =
      (Except.ok false,
        { world := demoClean
          log := [utf16 "✅ Already up to date"]
          trace := [(Call.status, true)] }) :=
  pullAndReload_skips_when_not_behind (demoAutoGit.setReloadCallback demoReload)
    (start demoClean)
    { current := utf16 "main", files := [], ahead := 0, behind := 0
      tracking := some (utf16 "origin/main"), staging := Staging.array [] }
    demoClean demoClean rfl rfl rfl

/-- C5 (counterexample): `pullAndReload` can reject. When the reload callback
rejects with `undefined`, the catch block throws on `error.message` and the
call rejects with that `TypeError`; when the log sink cannot be written to,
the call rejects with the error of the sink. -/
theorem pullAndReload_rejects_counterexample :
    ((demoAutoGit.setReloadCallback demoReloadRejectsUndefined).pullAndReload
        (start demoBehind)).1 = Except.error (typeErrorReading "message" "undefined") ∧
    (unloggedAutoGit.pullAndReload (start demoClean)).1 =
      Except.error (JSError.object (utf16 "EACCES: permission denied")) :=
  ⟨rfl, rfl⟩

/-- C5 (amended): with a log sink that accepts every line, a pull and a reload
callback that reject only with error objects whose message can be read, and a
status query that rejects only with such an object, `null` or `undefined`,
`pullAndReload` never rejects: it always resolves to a boolean; it resolves to
`false` when the status query fails, when the pull fails and when the reload
callback throws; and when the pull fails the calls made are the status query
and the pull only, so the reload callback is not invoked. -/
theorem pullAndReload_never_rejects (self : AutoGit σ) (s : Sys σ)
    (hlog : ∀ m w, (self.writeLog m w).1 = Except.ok ())
    (hstatus : ∀ w e, (self.git.status w).1 = Except.error e → e.depth ≤ 1)
    (hpull : ∀ w e, (self.git.pull (utf16 "origin") self.config.branch w).1 = Except.error e →
      e.depth = 0)
    (hreload : ∀ onReload, self.onReload = some onReload →
      ∀ w e, (onReload w).1 = Except.error e → e.depth = 0) :
    (∃ b, (self.pullAndReload s).1 = Except.ok b) ∧
    (∀ e w1, self.git.status s.world = (Except.error e, w1) →
      (self.pullAndReload s).1 = Except.ok false ∧
      (self.pullAndReload s).2.trace = s.trace ++ [(Call.status, false)]) ∧
    (∀ st w1 e w2, self.git.status s.world = (Except.ok st, w1) → st.behind > 0 →
      self.git.pull (utf16 "origin") self.config.branch
        (self.writeLog (utf16 "📥 Pulling " ++ numberToString (JSNumber.finite st.behind)
          ++ utf16 " commit(s) from GitHub...") w1).2 = (Except.error e, w2) →
      (self.pullAndReload s).1 = Except.ok false ∧
      (self.pullAndReload s).2.trace = s.trace ++ [(Call.status, true),
        (Call.pull (utf16 "origin") self.config.branch, false)]) ∧
    (∀ st w1 w2 onReload e w3, self.git.status s.world = (Except.ok st, w1) → st.behind > 0 →
      self.git.pull (utf16 "origin") self.config.branch
        (self.writeLog (utf16 "📥 Pulling " ++ numberToString (JSNumber.finite st.behind)
          ++ utf16 " commit(s) from GitHub...") w1).2 = (Except.ok (), w2) →
      self.onReload = some onReload →
      onReload (self.writeLog (utf16 "✅ Changes pulled successfully") w2).2
        = (Except.error e, w3) →
      (self.pullAndReload s).1 = Except.ok false ∧
      (self.pullAndReload s).2.trace = s.trace ++ [(Call.status, true),
        (Call.pull (utf16 "origin") self.config.branch, true), (Call.reload, false)]) := by
  have readable : ∀ e : JSError, e.depth = 0 → ∃ m, e = JSError.object m := by
    intro e he
    cases e with
    | object m => exact ⟨m, rfl⟩
    | null => simp [JSError.depth] at he
    | undefined => simp [JSError.depth] at he
    | messageThrows t => simp [JSError.depth] at he
  refine ⟨?_, ?_, ?_, ?_⟩
  · rcases pullAndReload_settles self 0 hlog (fun w e h => by have := hstatus w e h; omega)
      (fun w e h => by have := hpull w e h; omega)
      (fun cb hcb w e h => by have := hreload cb hcb w e h; omega) s with hb | ⟨e, _, he⟩
    · exact hb
    · omega
  · intro e w1 hst
    have hd := hstatus s.world e (by rw [hst])
    cases e with
    | object m =>
      simp [AutoGit.pullAndReload, AutoGit.getStatus, Eff.tryCatch, bind, Eff.bind, pure,
        Eff.pure, Eff.throw, AutoGit.log, AutoGit.logFailure, Eff.ofExcept,
        JSError.readMessage, invoke, resolved, hlog, hst]
    | null =>
      simp [AutoGit.pullAndReload, AutoGit.getStatus, Eff.tryCatch, bind, Eff.bind, pure,
        Eff.pure, Eff.throw, AutoGit.log, AutoGit.logFailure, Eff.ofExcept,
        JSError.readMessage, typeErrorReading, invoke, resolved, hlog, hst]
    | undefined =>
      simp [AutoGit.pullAndReload, AutoGit.getStatus, Eff.tryCatch, bind, Eff.bind, pure,
        Eff.pure, Eff.throw, AutoGit.log, AutoGit.logFailure, Eff.ofExcept,
        JSError.readMessage, typeErrorReading, invoke, resolved, hlog, hst]
    | messageThrows t =>
      have ht : t.depth = 0 := by simp [JSError.depth] at hd; exact hd
      obtain ⟨m, rfl⟩ := readable t ht
      simp [AutoGit.pullAndReload, AutoGit.getStatus, Eff.tryCatch, bind, Eff.bind, pure,
        Eff.pure, Eff.throw, AutoGit.log, AutoGit.logFailure, Eff.ofExcept,
        JSError.readMessage, invoke, resolved, hlog, hst]
  · intro st w1 e w2 hst hbehind hp
    have hb : 0 < st.behind := hbehind
    obtain ⟨m, rfl⟩ := readable e (hpull _ e (by rw [hp]))
    simp only [List.append_assoc] at hp
    simp [AutoGit.pullAndReload, Eff.tryCatch, bind, Eff.bind, pure, Eff.pure, AutoGit.log,
      AutoGit.logFailure, Eff.ofExcept, JSError.readMessage, invoke, resolved, hlog,
      getStatus_of_ok self s st w1 hst, hb, hp]
  · intro st w1 w2 onReload e w3 hst hbehind hp hcb hr
    have hb : 0 < st.behind := hbehind
    obtain ⟨m, rfl⟩ := readable e (hreload onReload hcb _ e (by rw [hr]))
    simp only [List.append_assoc] at hp
    simp [AutoGit.pullAndReload, Eff.tryCatch, bind, Eff.bind, pure, Eff.pure, AutoGit.log,
      AutoGit.logFailure, Eff.ofExcept, JSError.readMessage, invoke, resolved, hlog,
      getStatus_of_ok self s st w1 hst, hb, hp, hcb, hr]

/-- Witness of C5 on the demo repositories: with every git operation rejecting
with an error object the result is `false`; with the remote unreachable the
pull fails, the result is `false` and the registered callback is not invoked;
with a callback that throws an error object the result is `false`. -/
theorem pullAndReload_never_rejects_witness :
    ((brokenAutoGit.pullAndReload (start demoBehind)).1 = Except.ok false) ∧
    (((demoAutoGit.setReloadCallback demoReload).pullAndReload (start demoBehindOffline)).1
        = Except.ok false ∧
      ((demoAutoGit.setReloadCallback demoReload).pullAndReload (start demoBehindOffline)).2.trace
        = [(Call.status, true), (Call.pull (utf16 "origin") (utf16 "main"), false)]) ∧
    (((demoAutoGit.setReloadCallback demoReloadThrows).pullAndReload (start demoBehind)).1
        = Except.ok false) :=
  ⟨((pullAndReload_never_rejects brokenAutoGit (start demoBehind)
      (fun _ _ => rfl)
      (fun w e h => by
        simp [brokenAutoGit, brokenGit] at h
        subst h
        simp [JSError.depth])
      (fun w e h => by
        simp [brokenAutoGit, brokenGit] at h
        subst h
        rfl)
      (fun cb hcb => by simp [brokenAutoGit] at hcb)).2.1
      (JSError.object (utf16 "not a git repository")) demoBehind rfl).1,
    (pullAndReload_never_rejects (demoAutoGit.setReloadCallback demoReload)
      (start demoBehindOffline)
      (fun _ _ => rfl)
      (fun w e h => by simp [AutoGit.setReloadCallback, demoAutoGit, demoGit] at h)
      (fun w e h => by
        simp only [AutoGit.setReloadCallback, demoAutoGit, demoGit] at h
        split at h
        · simp at h
        · simp at h
          subst h
          rfl)
      (fun cb hcb w e h => by
        simp [AutoGit.setReloadCallback, demoAutoGit] at hcb
        subst hcb
        simp [demoReload] at h)).2.2.1
      { current := utf16 "main", files := [], ahead := 0, behind := 3
        tracking := some (utf16 "origin/main"), staging := Staging.array [] }
      demoBehindOffline (JSError.object (utf16 "remote unreachable")) demoBehindOffline
      rfl (by decide) rfl,
    ((pullAndReload_never_rejects (demoAutoGit.setReloadCallback demoReloadThrows)
      (start demoBehind)
      (fun _ _ => rfl)
      (fun w e h => by simp [AutoGit.setReloadCallback, demoAutoGit, demoGit] at h)
      (fun w e h => by
        simp only [AutoGit.setReloadCallback, demoAutoGit, demoGit] at h
        split at h
        · simp at h
        · simp at h
          subst h
          rfl)
      (fun cb hcb w e h => by
        simp [AutoGit.setReloadCallback, demoAutoGit] at hcb
        subst hcb
        simp [demoReloadThrows] at h
        subst h
        rfl)).2.2.2
      { current := utf16 "main", files := [], ahead := 0, behind := 3
        tracking := some (utf16 "origin/main"), staging := Staging.array [] }
      demoBehind { changed := [], staged := [], behind := 0, online := true, reloads := 0 }
      demoReloadThrows (JSError.object (utf16 "reload failed"))
      { changed := [], staged := [], behind := 0, online := true, reloads := 0 }
      rfl (by decide) rfl rfl rfl).1⟩

/-! ### `checkAndSync` and the one-shot run -/

/-- C6 (counterexample): `checkAndSync` can reject, and the one-shot run can
end with exit code 1. With a log sink that cannot be written to, the first
`log` throws, the one in the catch block throws again and `checkAndSync`
rejects, so the one-shot run takes the `catch` branch; and when the status
query rejects with an object whose `message` getter throws `null`, that `null`
reaches the catch block of `checkAndSync`, which throws on `error.message`. -/
theorem checkAndSync_rejects_counterexample :
    (unloggedAutoGit.checkAndSync (start demoClean)).1 =
      Except.error (JSError.object (utf16 "EACCES: permission denied")) ∧
    (runDirectly
      { newSimpleGit := fun w => (Except.ok demoGit, w), writeLog := unwritableLog,
        env := emptyEnv } (start demoClean)).1 = Exit.catchBranch ∧
    Exit.code Exit.catchBranch = 1 ∧
    (({ git := rejectingGit (JSError.messageThrows JSError.null), writeLog := demoLog,
        config := demoConfig, onReload := none } : AutoGit DemoRepo).checkAndSync
        (start demoClean)).1 = Except.error (typeErrorReading "message" "null") :=
  ⟨rfl, rfl, rfl, rfl⟩

/-- The one-shot run when `new SimpleGit()` throws (the `simple-git` package
exports no such constructor): the exception is thrown outside the promise
chain, no cycle runs and the process exits with code 1. -/
theorem runDirectly_constructor_throws :
    runDirectly packageHost (start demoClean) = (Exit.uncaughtException, start demoClean) ∧
    Exit.code Exit.uncaughtException = 1 :=
  ⟨rfl, rfl⟩

/-- C6 (amended): with a log sink that accepts every line, and a git client
and reload callback that reject only with values whose message can be read or
throws a value whose message can be read (error objects, `null`, `undefined`),
`checkAndSync` resolves whichever of status, add, commit, push, pull or the
callback fails; so a one-shot run whose `new AutoGit()` has returned this
instance takes the `then` branch, with exit code 0. When the first status
query fails with an error object, the cycle logs that failure twice (`Get
status failed`, `Sync failed`), makes no other call and resolves. -/
theorem checkAndSync_never_rejects (self : AutoGit σ) (s : Sys σ)
    (hlog : ∀ m w, (self.writeLog m w).1 = Except.ok ())
    (hstatus : ∀ w e, (self.git.status w).1 = Except.error e → e.depth ≤ 1)
    (hadd : ∀ files w e, (self.git.add files w).1 = Except.error e → e.depth ≤ 1)
    (hcommit : ∀ message w e, (self.git.commit message w).1 = Except.error e → e.depth ≤ 1)
    (hpush : ∀ remote branch w e, (self.git.push remote branch w).1 = Except.error e →
      e.depth ≤ 1)
    (hpull : ∀ remote branch w e, (self.git.pull remote branch w).1 = Except.error e →
      e.depth ≤ 1)
    (hreload : ∀ onReload, self.onReload = some onReload →
      ∀ w e, (onReload w).1 = Except.error e → e.depth ≤ 1) :
    (self.checkAndSync s).1 = Except.ok () ∧
    (∀ (host : Host σ) (w0 : σ), AutoGit.construct host w0 = (Except.ok self, s.world) →
      runDirectly host { world := w0, log := s.log, trace := s.trace } =
        (Exit.thenBranch, (self.checkAndSync s).2)) ∧
    Exit.code Exit.thenBranch = 0 ∧
    (∀ m w1,
      self.git.status (self.writeLog (utf16 "🔄 Starting sync check...") s.world).2
        = (Except.error (JSError.object m), w1) →
      self.checkAndSync s =
        (Except.ok (),
          { world := (self.writeLog (utf16 "❌ Sync failed: " ++ m)
              (self.writeLog (utf16 "❌ Get status failed: " ++ m) w1).2).2
            log := s.log ++ [utf16 "🔄 Starting sync check...",
              utf16 "❌ Get status failed: " ++ m, utf16 "❌ Sync failed: " ++ m]
            trace := s.trace ++ [(Call.status, false)] })) := by
  have hres : (self.checkAndSync s).1 = Except.ok () := by
    rcases checkAndSync_settles self hlog
      (fun w e h => by have := hstatus w e h; omega)
      (fun f w e h => by have := hadd f w e h; omega)
      (fun m w e h => by have := hcommit m w e h; omega)
      (fun r b w e h => by have := hpush r b w e h; omega)
      (fun r b w e h => by have := hpull r b w e h; omega)
      (fun cb hcb w e h => by have := hreload cb hcb w e h; omega) s with ⟨_, ha⟩ | ⟨e, _, he⟩
    · exact ha
    · omega
  refine ⟨hres, ?_, rfl, ?_⟩
  · intro host w0 hnew
    have hs : ({ world := s.world, log := s.log, trace := s.trace } : Sys σ) = s := rfl
    rcases hrun : self.checkAndSync s with ⟨r, s1⟩
    rw [hrun] at hres
    simp only at hres
    subst hres
    simp [runDirectly, hnew, hs, hrun]
  · intro m w1 hst
    simp [AutoGit.checkAndSync, AutoGit.getStatus, Eff.tryCatch, bind, Eff.bind, pure, Eff.pure,
      Eff.throw, AutoGit.log, AutoGit.logFailure, Eff.ofExcept, JSError.readMessage, invoke,
      resolved, hlog, hst]

/-- Witness of C6 on the demo host: the client rejects only with error objects,
the log sink accepts every line, and the one-shot run on a working tree with
changed files takes the `then` branch. -/
theorem checkAndSync_never_rejects_witness :
    (demoAutoGit.checkAndSync (start demoManyFiles)).1 = Except.ok () ∧
    runDirectly demoHost (start demoManyFiles) =
      (Exit.thenBranch, (demoAutoGit.checkAndSync (start demoManyFiles)).2) :=
  ⟨(checkAndSync_never_rejects demoAutoGit (start demoManyFiles)
      (fun _ _ => rfl)
      (fun w e h => by simp [demoAutoGit, demoGit] at h)
      (fun f w e h => by simp [demoAutoGit, demoGit] at h)
      (fun m w e h => by simp [demoAutoGit, demoGit] at h)
      (fun r b w e h => by
        simp only [demoAutoGit, demoGit] at h
        split at h
        · simp at h
        · simp at h
          subst h
          simp [JSError.depth])
      (fun r b w e h => by
        simp only [demoAutoGit, demoGit] at h
        split at h
        · simp at h
        · simp at h
          subst h
          simp [JSError.depth])
      (fun cb hcb => by simp [demoAutoGit] at hcb)).1,
    (checkAndSync_never_rejects demoAutoGit (start demoManyFiles)
      (fun _ _ => rfl)
      (fun w e h => by simp [demoAutoGit, demoGit] at h)
      (fun f w e h => by simp [demoAutoGit, demoGit] at h)
      (fun m w e h => by simp [demoAutoGit, demoGit] at h)
      (fun r b w e h => by
        simp only [demoAutoGit, demoGit] at h
        split at h
        · simp at h
        · simp at h
          subst h
          simp [JSError.depth])
      (fun r b w e h => by
        simp only [demoAutoGit, demoGit] at h
        split at h
        · simp at h
        · simp at h
          subst h
          simp [JSError.depth])
      (fun cb hcb => by simp [demoAutoGit] at hcb)).2.1 demoHost demoManyFiles rfl⟩

/-- C7: in a state where the status query is a pure read reporting no changed
files and `behind = 0` (and log writes leave that state as it is), a
`checkAndSync` cycle makes two status queries and no other call (no add,
commit, push or pull), logs `Already up to date`, leaves the world unchanged,
and a second cycle right after does exactly the same. -/
theorem checkAndSync_idle_when_in_sync (self : AutoGit σ) (s : Sys σ) (st : StatusResult)
    (hstatus : self.git.status s.world = (Except.ok st, s.world))
    (hfiles : st.files = [])
    (hbehind : st.behind = 0)
    (hlog : ∀ m, self.writeLog m s.world = (Except.ok (), s.world)) :
    self.checkAndSync s = (Except.ok (), afterIdleCycle s) ∧
    self.checkAndSync (afterIdleCycle s) = (Except.ok (), afterIdleCycle (afterIdleCycle s)) ∧
    (afterIdleCycle s).world = s.world ∧
    (afterIdleCycle s).trace = s.trace ++ [(Call.status, true), (Call.status, true)] ∧
    (∀ c ∈ [(Call.status, true), (Call.status, true)], Call.isGitMutating c.1 = false) ∧
    utf16 "✅ Already up to date" ∈ (afterIdleCycle s).log := by
  have key : ∀ (l : List JSString) (tr : List (Call × Bool)),
      self.checkAndSync { world := s.world, log := l, trace := tr } =
        (Except.ok (), afterIdleCycle { world := s.world, log := l, trace := tr }) := by
    intro l tr
    have h1 := getStatus_of_ok self
      { world := s.world, log := l ++ [utf16 "🔄 Starting sync check..."], trace := tr }
      st s.world hstatus
    have h2 := getStatus_of_ok self
      { world := s.world, log := l ++ [utf16 "🔄 Starting sync check..."],
        trace := tr ++ [(Call.status, true)] }
      st s.world hstatus
    simp [AutoGit.checkAndSync, AutoGit.pullAndReload, Eff.tryCatch, bind, Eff.bind, pure,
      Eff.pure, AutoGit.log, hlog, h1, h2, hfiles, hbehind, afterIdleCycle]
  refine ⟨key s.log s.trace, key (afterIdleCycle s).log (afterIdleCycle s).trace, rfl, rfl,
    ?_, ?_⟩
  · intro c hc
    simp at hc
    simp [hc, Call.isGitMutating]
  · simp [afterIdleCycle]

/-- Witness of C7 on the clean demo repository. -/
theorem checkAndSync_idle_when_in_sync_witness :
    demoAutoGit.checkAndSync (start demoClean) = (Except.ok (), afterIdleCycle (start demoClean)) ∧
    demoAutoGit.checkAndSync (afterIdleCycle (start demoClean)) =
      (Except.ok (), afterIdleCycle (afterIdleCycle (start demoClean))) :=
  ⟨(checkAndSync_idle_when_in_sync demoAutoGit (start demoClean)
      { current := utf16 "main", files := [], ahead := 0, behind := 0
        tracking := some (utf16 "origin/main"), staging := Staging.array [] }
      rfl rfl rfl (fun _ => rfl)).1,
    (checkAndSync_idle_when_in_sync demoAutoGit (start demoClean)
      { current := utf16 "main", files := [], ahead := 0, behind := 0
        tracking := some (utf16 "origin/main"), staging := Staging.array [] }
      rfl rfl rfl (fun _ => rfl)).2.1⟩

/-- C8: when the status query reports a non-empty list of changed files,
`checkAndSync` calls `commitAndPush` with the message made of `Auto-commit: `
followed by the first 100 code units of the paths joined with `, `: the cycle
goes on, inside the same `try`, with that call, then `pullAndReload`, then the
closing log line. That path text has at most 100 code units and is the whole
joined string when the latter has at most 100. -/
theorem checkAndSync_commit_message (self : AutoGit σ) (s : Sys σ) (st : StatusResult)
    (w0 w1 : σ)
    (hlogStart : self.writeLog (utf16 "🔄 Starting sync check...") s.world = (Except.ok (), w0))
    (hstatus : self.git.status w0 = (Except.ok st, w1))
    (hfiles : st.files ≠ []) :
    self.checkAndSync s =
      Eff.tryCatch
        (do
          let _ ← self.commitAndPush
            (utf16 "Auto-commit: " ++
              List.take 100 (join (st.files.map (fun f => f.path)) (utf16 ", ")))
            AutoGit.defaultFiles
          let _ ← self.pullAndReload
          self.log (utf16 "✅ Sync check completed"))
        (fun error => self.logFailure (utf16 "❌ Sync failed: ") error)
        { world := w1
          log := s.log ++ [utf16 "🔄 Starting sync check..."]
          trace := s.trace ++ [(Call.status, true)] } ∧
    (List.take 100 (join (st.files.map (fun f => f.path)) (utf16 ", "))).length ≤ 100 ∧
    ((join (st.files.map (fun f => f.path)) (utf16 ", ")).length ≤ 100 →
      List.take 100 (join (st.files.map (fun f => f.path)) (utf16 ", ")) =
        join (st.files.map (fun f => f.path)) (utf16 ", ")) := by
  refine ⟨?_, ?_, ?_⟩
  · have h := getStatus_of_ok self
      { world := w0, log := s.log ++ [utf16 "🔄 Starting sync check..."], trace := s.trace }
      st w1 hstatus
    have hl : 0 < st.files.length := List.length_pos.mpr hfiles
    simp [AutoGit.checkAndSync, Eff.tryCatch, bind, Eff.bind, pure, Eff.pure, AutoGit.log,
      hlogStart, h, hl, substring0]
  · simp
  · intro hle
    exact List.take_of_length_le hle

set_option maxRecDepth 20000

/-- Witness of C8 on a demo repository whose five changed paths join to 141
code units: the message passed on is `Auto-commit: ` followed by the first 100
of them, and it is the message of the commit the cycle makes. -/
theorem checkAndSync_commit_message_witness :
    (demoAutoGit.checkAndSync (start demoManyFiles) =
      Eff.tryCatch
        (do
          let _ ← demoAutoGit.commitAndPush
            (utf16 "Auto-commit: " ++
              List.take 100 (join (demoManyFiles.changed.map (fun f => f.path)) (utf16 ", ")))
            AutoGit.defaultFiles
          let _ ← demoAutoGit.pullAndReload
          demoAutoGit.log (utf16 "✅ Sync check completed"))
        (fun error => demoAutoGit.logFailure (utf16 "❌ Sync failed: ") error)
        { world := demoManyFiles
          log := [] ++ [utf16 "🔄 Starting sync check..."]
          trace := [] ++ [(Call.status, true)] }) ∧
    (join (demoManyFiles.changed.map (fun f => f.path)) (utf16 ", ")).length = 141 ∧
    utf16 "Auto-commit: " ++
        List.take 100 (join (demoManyFiles.changed.map (fun f => f.path)) (utf16 ", ")) =
      utf16 ("Auto-commit: src/bot/commands/trading/buy.js, src/bot/commands/trading/sell.js, "
        ++ "src/bot/events/interactionCreate.") ∧
    (Call.commit (utf16 ("Auto-commit: src/bot/commands/trading/buy.js, "
        ++ "src/bot/commands/trading/sell.js, src/bot/events/interactionCreate.")), true) ∈
      (demoAutoGit.checkAndSync (start demoManyFiles)).2.trace :=
  ⟨(checkAndSync_commit_message demoAutoGit (start demoManyFiles)
      { current := utf16 "main", files := demoManyFiles.changed, ahead := 0, behind := 0
        tracking := some (utf16 "origin/main"), staging := Staging.array [] }
      demoManyFiles demoManyFiles rfl rfl (by decide)).1, by decide, by decide, by decide⟩

/-! ### The schedule of `startAutoSync` -/

/-- When `N` divides 60 the ticks of `*/N` are the multiples of `N`. -/
theorem firesAt_iff_dvd (N t : Nat) (hdvd : N ∣ 60) : firesAt N t = true ↔ N ∣ t := by
  simp [firesAt, Nat.mod_mod_of_dvd t hdvd, Nat.dvd_iff_mod_eq_zero]

/-- When `N` is positive and divides 60 (as the default 30 does), any two
consecutive ticks of `*/N` are exactly `N` minutes apart. -/
theorem consecutiveTicks_of_dvd (N t1 t2 : Nat) (hpos : 0 < N) (hdvd : N ∣ 60)
    (h : ConsecutiveTicks N t1 t2) : t2 = t1 + N := by
  obtain ⟨h1, h2, hlt, hbetween⟩ := h
  rw [firesAt_iff_dvd N t1 hdvd] at h1
  rw [firesAt_iff_dvd N t2 hdvd] at h2
  have hnext : firesAt N (t1 + N) = true :=
    (firesAt_iff_dvd N (t1 + N) hdvd).mpr (Dvd.dvd.add h1 (dvd_refl N))
  rcases Nat.lt_trichotomy t2 (t1 + N) with hlt2 | heq | hgt
  · exfalso
    have hd : N ∣ t2 - t1 := Nat.dvd_sub' h2 h1
    have hle : N ≤ t2 - t1 := Nat.le_of_dvd (by omega) hd
    omega
  · exact heq
  · exfalso
    have := hbetween (t1 + N) (by omega) hgt
    rw [hnext] at this
    exact absurd this (by decide)

/-- C9 (failing input): with `GITHUB_AUTO_SYNC=true` and
`GITHUB_SYNC_INTERVAL=7`, `startAutoSync` logs `every 7 minutes` and registers
the expression `*/7 * * * *`; minutes 56 and 60 are two consecutive ticks of
that schedule and they are 4 minutes apart, not 7. -/
theorem startAutoSync_interval_7_uneven :
    (constructorConfig demoEnvEvery7).autoSync = true ∧
    (constructorConfig demoEnvEvery7).syncInterval = JSNumber.finite 7 ∧
    (Call.schedule (utf16 "*/7 * * * *"), true) ∈
      (AutoGit.startAutoSync
        { git := demoGit, writeLog := demoLog, config := constructorConfig demoEnvEvery7,
          onReload := none }
        demoSchedule (start demoClean)).2.trace ∧
    utf16 "🔄 Starting auto-sync (every 7 minutes)" ∈
      (AutoGit.startAutoSync
        { git := demoGit, writeLog := demoLog, config := constructorConfig demoEnvEvery7,
          onReload := none }
        demoSchedule (start demoClean)).2.log ∧
    ConsecutiveTicks 7 56 60 ∧ 60 ≠ 56 + 7 := by
  refine ⟨by decide, by decide, by decide, by decide,
    ⟨by decide, by decide, by decide, ?_⟩, by decide⟩
  intro t h1 h2
  interval_cases t <;> decide

/-! ### The configuration -/

theorem shiftOf_spec (fuel n k : Nat) :
    shiftOf fuel n k = k ∨
      (2 ^ 53 ≤ n / 2 ^ (shiftOf fuel n k - 1) ∧ 1 ≤ shiftOf fuel n k) := by
  induction fuel generalizing k with
  | zero => exact Or.inl rfl
  | succ fuel ih =>
    unfold shiftOf
    split
    · exact Or.inl rfl
    · rename_i hge
      rcases ih (k + 1) with heq | hright
      · right
        rw [heq]
        exact ⟨by simpa using Nat.le_of_not_lt hge, by omega⟩
      · exact Or.inr hright

/-- Rounding a positive integer to a double never gives zero. -/
theorem roundToDouble_pos (n d : Nat) (hn : 0 < n) (h : roundToDouble n = some d) : 0 < d := by
  unfold roundToDouble at h
  split at h
  · cases h
    exact hn
  · rename_i hbig
    split at h
    · cases h
    · split at h
      · cases h
      · cases h
        have hq : 0 < n / 2 ^ shiftOf 1024 n 0 := by
          rcases shiftOf_spec 1024 n 0 with h0 | ⟨hle, hk⟩
          · rw [h0]
            simp
            omega
          · apply Nat.div_pos _ (Nat.pow_pos (by decide))
            have h1 : 2 ^ 53 * 2 ^ (shiftOf 1024 n 0 - 1) ≤ n :=
              (Nat.le_div_iff_mul_le (Nat.pow_pos (by decide))).mp hle
            have h2 : 2 ^ shiftOf 1024 n 0 = 2 * 2 ^ (shiftOf 1024 n 0 - 1) := by
              rw [← Nat.pow_succ']
              congr 1
              omega
            have h3 : 2 * 2 ^ (shiftOf 1024 n 0 - 1) ≤ 2 ^ 53 * 2 ^ (shiftOf 1024 n 0 - 1) :=
              Nat.mul_le_mul_right _ (by decide)
            omega
        apply Nat.mul_pos _ (Nat.pow_pos (by decide))
        unfold roundShifted
        split <;> omega

/-- The number for a non-zero magnitude is a non-zero integer of the given
sign, or the infinity of that sign. -/
theorem toNumber_sign (negative : Bool) (v : Nat) (hv : v ≠ 0) :
    (∃ d : Nat, 0 < d ∧
      toNumber negative v = JSNumber.finite (if negative then -(d : Int) else (d : Int))) ∨
    toNumber negative v = JSNumber.infinity negative := by
  unfold toNumber
  rcases h : roundToDouble v with _ | d
  · exact Or.inr rfl
  · exact Or.inl ⟨d, roundToDouble_pos v d (Nat.pos_of_ne_zero hv) h, rfl⟩

/-- C10 (counterexample): with `GITHUB_SYNC_INTERVAL=-5` the interval of both
configurations is `-5`, which is not positive. -/
theorem syncInterval_negative_counterexample :
    (constructorConfig (envWithInterval "-5")).syncInterval = JSNumber.finite (-5) ∧
    (githubConfig (envWithInterval "-5")).syncInterval = JSNumber.finite (-5) ∧
    (constructorConfig (envWithInterval "-5")).syncInterval.isPositive = false := by
  decide

/-- The value of `parseInt(text) || 30` in terms of the sign and the unsigned
part read from `text`. -/
theorem numberOr_parseIntString (text : JSString) :
    numberOr (parseIntString text) (JSNumber.finite 30) =
      match parseMagnitude
          (if (text.dropWhile isWhiteSpace).head? = some 45 ∨
              (text.dropWhile isWhiteSpace).head? = some 43
            then (text.dropWhile isWhiteSpace).tail else text.dropWhile isWhiteSpace) with
      | none => JSNumber.finite 30
      | some v =>
        if v = 0 then JSNumber.finite 30
        else toNumber (decide ((text.dropWhile isWhiteSpace).head? = some 45)) v := by
  unfold parseIntString
  simp only
  generalize parseMagnitude _ = pm
  generalize decide ((text.dropWhile isWhiteSpace).head? = some 45) = negative
  rcases pm with _ | v
  · rfl
  · by_cases hv : v = 0
    · subst hv
      cases negative <;> simp [toNumber, roundToDouble, numberOr]
    · rcases toNumber_sign negative v hv with ⟨d, hd, hfin⟩ | hinf
      · simp only [hfin, hv, if_false, numberOr]
        cases negative <;> simp <;> omega
      · simp [hinf, hv, numberOr]

/-- C10 (amended): for every value of `GITHUB_SYNC_INTERVAL`, the `syncInterval`
of the constructor's configuration and of the config module is the same
number, never `NaN` and never zero. It is 30 when the variable is unset. It is
positive (a positive integer, or `Infinity` for a numeral too large for a
double) unless the text is, after leading white space, a minus sign followed
by a numeral that is not zero, in which case it is negative. A numeral below
`2 ^ 53` that is not zero is kept exactly, with its sign. -/
theorem syncInterval_sign (env : ProcessEnv) :
    (constructorConfig env).syncInterval = syncInterval env ∧
    (githubConfig env).syncInterval = syncInterval env ∧
    (env "GITHUB_SYNC_INTERVAL" = none → syncInterval env = JSNumber.finite 30) ∧
    (readsNegative (env "GITHUB_SYNC_INTERVAL") = false →
      (∃ n : Int, 0 < n ∧ syncInterval env = JSNumber.finite n) ∨
        syncInterval env = JSNumber.infinity false) ∧
    (readsNegative (env "GITHUB_SYNC_INTERVAL") = true →
      (∃ n : Int, n < 0 ∧ syncInterval env = JSNumber.finite n) ∨
        syncInterval env = JSNumber.infinity true) ∧
    (∀ text v, env "GITHUB_SYNC_INTERVAL" = some text →
      parseMagnitude
          (if (text.dropWhile isWhiteSpace).head? = some 45 ∨
              (text.dropWhile isWhiteSpace).head? = some 43
            then (text.dropWhile isWhiteSpace).tail else text.dropWhile isWhiteSpace) = some v →
      v ≠ 0 → v < 2 ^ 53 →
      syncInterval env = JSNumber.finite
        (if (text.dropWhile isWhiteSpace).head? = some 45 then -(v : Int) else (v : Int))) := by
  have hundef : parseIntString (utf16 "undefined") = JSNumber.nan := by decide
  refine ⟨rfl, rfl, ?_, ?_, ?_, ?_⟩
  · intro hnone
    simp [syncInterval, parseInt, hnone, hundef, numberOr]
  · intro hread
    rcases hv : env "GITHUB_SYNC_INTERVAL" with _ | text
    · exact Or.inl ⟨30, by decide, by simp [syncInterval, parseInt, hv, hundef, numberOr]⟩
    · rw [hv] at hread
      simp only [syncInterval, parseInt, hv, numberOr_parseIntString]
      by_cases hneg : (text.dropWhile isWhiteSpace).head? = some 45
      · simp only [readsNegative, hneg, decide_True, Bool.true_and] at hread
        simp only [hneg, true_or, if_true, decide_True]
        rcases hp : parseMagnitude (text.dropWhile isWhiteSpace).tail with _ | v
        · exact Or.inl ⟨30, by decide, rfl⟩
        · rw [hp] at hread
          have hv0 : v = 0 := by simpa using hread
          subst hv0
          exact Or.inl ⟨30, by decide, rfl⟩
      · simp only [hneg, false_or, decide_False]
        split
        · exact Or.inl ⟨30, by decide, rfl⟩
        · rename_i v _
          by_cases hv0 : v = 0
          · simp only [hv0, if_true]
            exact Or.inl ⟨30, by decide, rfl⟩
          · simp only [hv0, if_false]
            rcases toNumber_sign false v hv0 with ⟨d, hd, hfin⟩ | hinf
            · exact Or.inl ⟨d, by omega, by simpa using hfin⟩
            · exact Or.inr hinf
  · intro hread
    rcases hv : env "GITHUB_SYNC_INTERVAL" with _ | text
    · rw [hv] at hread
      simp [readsNegative] at hread
    · rw [hv] at hread
      simp only [syncInterval, parseInt, hv, numberOr_parseIntString]
      simp only [readsNegative, Bool.and_eq_true, decide_eq_true_eq] at hread
      obtain ⟨hneg, hmag⟩ := hread
      simp only [hneg, true_or, if_true, decide_True]
      rcases hp : parseMagnitude (text.dropWhile isWhiteSpace).tail with _ | v
      · rw [hp] at hmag
        simp at hmag
      · rw [hp] at hmag
        have hv0 : v ≠ 0 := by simpa using hmag
        simp only [hv0, if_false]
        rcases toNumber_sign true v hv0 with ⟨d, hd, hfin⟩ | hinf
        · exact Or.inl ⟨-(d : Int), by omega, by simpa using hfin⟩
        · exact Or.inr hinf
  · intro text v htext hp hv0 hsmall
    simp only [syncInterval, parseInt, htext, numberOr_parseIntString, hp, hv0, if_false]
    have hround : roundToDouble v = some v := by
      unfold roundToDouble
      rw [if_pos hsmall]
    by_cases hneg : (text.dropWhile isWhiteSpace).head? = some 45 <;>
      simp [hneg, toNumber, hround]

/-- Evaluation of C10 at concrete values: unset, empty, non-numeric, zero,
`-0`, `-abc`, `-` and `- 5` give 30; `45` gives 45; `0x1F` gives 31; `-5` gives
-5; `9007199254740993` gives the double 9007199254740992. -/
theorem syncInterval_sign_witness :
    syncInterval emptyEnv = JSNumber.finite 30 ∧
    syncInterval (envWithInterval "") = JSNumber.finite 30 ∧
    syncInterval (envWithInterval "abc") = JSNumber.finite 30 ∧
    syncInterval (envWithInterval "0") = JSNumber.finite 30 ∧
    syncInterval (envWithInterval "-0") = JSNumber.finite 30 ∧
    syncInterval (envWithInterval "-abc") = JSNumber.finite 30 ∧
    syncInterval (envWithInterval "-") = JSNumber.finite 30 ∧
    syncInterval (envWithInterval "- 5") = JSNumber.finite 30 ∧
    syncInterval (envWithInterval "45") = JSNumber.finite 45 ∧
    syncInterval (envWithInterval "0x1F") = JSNumber.finite 31 ∧
    syncInterval (envWithInterval "-5") = JSNumber.finite (-5) ∧
    syncInterval (envWithInterval "9007199254740993") = JSNumber.finite 9007199254740992 :=
  ⟨(syncInterval_sign emptyEnv).2.2.1 rfl, by decide, by decide, by decide, by decide,
    by decide, by decide, by decide,
    (syncInterval_sign (envWithInterval "45")).2.2.2.2.2 (utf16 "45") 45 rfl (by decide)
      (by decide) (by decide),
    by decide, by decide, by decide⟩

/-- With a numeral of 400 digits the interval is `Infinity`, which the cron
expression then carries. -/
theorem syncInterval_infinity :
    syncInterval (envWithInterval (String.mk (List.replicate 400 (Char.ofNat 57)))) =
      JSNumber.infinity false ∧
    AutoGit.cronExpression (JSNumber.infinity false) = utf16 "*/Infinity * * * *" := by
  decide

end Theorems

end RubaTrader
